import Mathlib

/-! # Carla plugin bridge: OSC endpoint (`carla_bridge_osc.cpp`)

A shallow embedding of `CarlaBridgeOsc` (construction, `init`, `close`, message
matching, dispatch and the per-method handlers) and of the `osc_send_bridge_*`
status reporters, followed by theorems about them.

Conventions of the embedding:

* a C string is the list of its characters before the terminating NUL; C
  strings hold UTF-8 text, and `QString(const char*)` / `QString::toUtf8()` are
  the identity on text;
* `int`/`int32_t` values are `Int`, a byte (`uint8_t`) is a number below 256;
* the effects of a call are made explicit: calls on the client are recorded in
  the client, log lines of severity warning or higher are returned, messages
  sent through liblo are recorded in the process state;
* `none` stands for undefined behaviour of the C++ code (reading an argument
  that the message does not carry, writing past a buffer, `strlen(NULL)`);
* the build modelled is the plugin bridge: `BUILD_BRIDGE_PLUGIN` is defined,
  `BRIDGE_LV2` is not; `qDebug` tracing is not modelled; `Q_ASSERT` (compiled
  out in release builds) stops no call, and the checks at the head of `init`
  and `close` are the predicates `init_assert` and `close_assert`.
-/

set_option autoImplicit false

namespace CarlaBridge

/-! ## C strings -/

/-- A C string: its characters up to, not including, the terminating NUL. -/
abbrev CStr := List Char

/-- The C function `strlen`. -/
def strlen (s : CStr) : Nat := s.length

/-- The C function `strcmp`; the code only compares its result with zero. -/
def strcmp (a b : CStr) : Int := if a = b then 0 else 1

/-- The C function `strncmp(a, b, n)`: at most `n` characters of each string are
compared; the code only compares its result with zero. -/
def strncmp (a b : CStr) (n : Nat) : Int := if a.take n = b.take n then 0 else 1

/-- The string held by `char method[32] = {0}` after `memcpy(method, src, 32)`, as
the comparisons with the method names see it: the first 32 characters of
`src`. When `src` is shorter, the buffer holds `src`, its terminator and
whatever bytes follow it in memory, which `strcmp` never reaches; when `src`
has 32 characters or more, the buffer holds 32 characters and no terminator,
and every comparison with a shorter method name is decided inside the
buffer. -/
def memcpy32 (src : CStr) : CStr := src.take 32

/-- A `const char*` handed to the client: it points at a live string, or into the
storage of an object that has already been destroyed (we keep what it held). -/
inductive ConstCharPtr
  | live (s : CStr)
  | dangling (s : CStr)
  deriving DecidableEq

/-! ## Numbers -/

/-- A C `float`, by its 32-bit pattern. -/
structure CFloat where
  bits : Nat
  deriving DecidableEq

/-- A C `double` as this file produces it: the literal `0.0`, a `float` converted
(exactly) to `double`, or any other value by its 64-bit pattern. -/
inductive CDouble
  | zero
  | ofFloat (f : CFloat)
  | ofBits (bits : Nat)
  deriving DecidableEq

/-- A byte. Arithmetic on bytes is done on `Nat`, reduced modulo 256. -/
abbrev uint8_t := Fin 256

/-! ## liblo values -/

/-- The union `lo_arg` of liblo, with the member that the message really carries. -/
inductive lo_arg
  | i (v : Int)
  | f (v : CFloat)
  | s (v : CStr)
  | m (b0 b1 b2 b3 : uint8_t)
  deriving DecidableEq

/-- Reads `arg->i`. -/
def lo_arg.get_i : lo_arg → Option Int
  | .i v => some v
  | _ => none

/-- Reads `arg->f`. -/
def lo_arg.get_f : lo_arg → Option CFloat
  | .f v => some v
  | _ => none

/-- Reads `(const char*)&arg->s`. -/
def lo_arg.get_s : lo_arg → Option CStr
  | .s v => some v
  | _ => none

/-- Reads `arg->m`, four bytes. -/
def lo_arg.get_m : lo_arg → Option (uint8_t × uint8_t × uint8_t × uint8_t)
  | .m b0 b1 b2 b3 => some (b0, b1, b2, b3)
  | _ => none

/-- A liblo address, made by `lo_address_new(host, port)`. -/
structure lo_address where
  host : Option CStr
  port : Option CStr
  deriving DecidableEq

/-- A liblo server thread: whether a catch-all method is registered, whether the
listener runs, and whether the thread object has been freed (a pointer to it
then dangles). -/
structure lo_server_thread where
  has_method : Bool
  started : Bool
  freed : Bool
  deriving DecidableEq

/-- One variadic argument of `lo_send`, by the C type it is passed with. -/
inductive lo_send_arg
  | int (v : Int)
  | long (v : Int)
  | double (v : CDouble)
  | string (v : CStr)
  deriving DecidableEq

/-- One call of `lo_send(target, path, types, ...)`. -/
structure OscSend where
  target : lo_address
  path : CStr
  types : CStr
  args : List lo_send_arg
  deriving DecidableEq

/-! ## The client -/

/-- The message kinds passed to `quequeMessage`. -/
inductive MessageType
  | MESSAGE_PARAMETER
  | MESSAGE_PROGRAM
  | MESSAGE_MIDI_PROGRAM
  | MESSAGE_NOTE_ON
  | MESSAGE_NOTE_OFF
  | MESSAGE_SHOW_GUI
  | MESSAGE_QUIT
  | BRIDGE_MESSAGE_SAVE_NOW
  deriving DecidableEq

/-- A call made on the client. -/
inductive ClientCall
  | quequeMessage (type : MessageType) (value1 value2 : Int) (value3 : CDouble)
  | setChunkData (value : ConstCharPtr)
  | set_custom_data (type key value : ConstCharPtr)
  deriving DecidableEq

/-- Modelled from the spec: the class `CarlaBridgeClient` is declared in
`carla_bridge_client.h`, which is not among the sources. It is the sink that
accepts the decoded events; the model records the calls made on it, oldest
first. -/
structure CarlaBridgeClient where
  calls : List ClientCall
  deriving DecidableEq

/-- The client after one more call. -/
def CarlaBridgeClient.record (c : CarlaBridgeClient) (call : ClientCall) : CarlaBridgeClient :=
  ⟨c.calls ++ [call]⟩

/-! ## The endpoint -/

/-- The struct `CarlaOscData`: reply path, source (unused) and target. -/
structure CarlaOscData where
  path : Option CStr
  source : Option lo_address
  target : Option lo_address
  deriving DecidableEq

/-- The members of `CarlaBridgeOsc`; a null pointer is `none`. -/
structure CarlaBridgeOsc where
  client : Option CarlaBridgeClient
  m_serverPath : Option CStr
  m_serverThread : Option lo_server_thread
  m_controlData : CarlaOscData
  m_name : CStr
  m_nameSize : Nat
  deriving DecidableEq

/-- The constructor `CarlaBridgeOsc::CarlaBridgeOsc(client_, name)`. -/
def CarlaBridgeOsc.new (client_ : Option CarlaBridgeClient) (name : CStr) : CarlaBridgeOsc :=
  { client := client_
    m_serverPath := none
    m_serverThread := none
    m_controlData := { path := none, source := none, target := none }
    m_name := name
    m_nameSize := strlen name }

/-- A line logged with `qWarning` or `qCritical` when a message is rejected, named
by the kind of rejection it reports. -/
inductive Warning
  /-- The text `message not for this client -> '%s' != '/%s/'`, with path and name. -/
  | AddressMismatch (path m_name : CStr)
  /-- The text `Got unsupported OSC method '%s'`, with path and method. The method
  is recorded as the buffer holds it; when the buffer holds 32 characters and no
  terminator, the text printed runs on past the buffer. -/
  | UnsupportedMethod (path method : CStr)
  /-- The line logged by `CARLA_BRIDGE_OSC_CHECK_OSC_TYPES`. -/
  | TypeSignatureMismatch (argc : Int) (types : CStr) (argcToCompare : Int) (typesToCompare : CStr)
  deriving DecidableEq

/-- What a call of `handleMessage` or of a handler leaves behind: the returned
status (0 handled, 1 not handled), the endpoint with its client, and the
lines logged. -/
structure Outcome where
  ret : Int
  self : CarlaBridgeOsc
  log : List Warning
  deriving DecidableEq

/-- The call `client->m(...)` on the endpoint, for a client that is not null. -/
def CarlaBridgeOsc.call (self : CarlaBridgeOsc) (client : CarlaBridgeClient) (c : ClientCall) :
    CarlaBridgeOsc :=
  { self with client := some (client.record c) }

/-! ## Parts declared in headers that are not among the sources -/

/-- The `configure` keys `CARLA_BRIDGE_MSG_SAVE_NOW`, `CARLA_BRIDGE_MSG_SET_CHUNK` and
`CARLA_BRIDGE_MSG_SET_CUSTOM`; their values are defined in a header that is not
among the sources, so they are parameters. -/
structure BridgeMsgKeys where
  CARLA_BRIDGE_MSG_SAVE_NOW : CStr
  CARLA_BRIDGE_MSG_SET_CHUNK : CStr
  CARLA_BRIDGE_MSG_SET_CUSTOM : CStr
  deriving DecidableEq

/-- Modelled from the spec: the macro `CARLA_BRIDGE_OSC_CHECK_OSC_TYPES` is
defined in `carla_bridge_osc.h`, which is not among the sources. Each handler
enforces an exact required (count, type-signature) pair; a mismatch is logged
and the handler returns the not-handled status. The result is the line logged
when the pair is not the required one, `none` when the check passes. -/
def CARLA_BRIDGE_OSC_CHECK_OSC_TYPES (argc : Int) (types : CStr)
    (argcToCompare : Int) (typesToCompare : CStr) : Option Warning :=
  if argc ≠ argcToCompare ∨ strcmp types typesToCompare ≠ 0 then
    some (Warning.TypeSignatureMismatch argc types argcToCompare typesToCompare)
  else none

/-- Modelled from the spec: the constant of `carla_midi.h` (not among the
sources) for the status whose high nibble denotes note off. -/
def MIDI_STATUS_NOTE_OFF : Nat := 0x80

/-- Modelled from the spec: the constant of `carla_midi.h` (not among the
sources) for the status whose high nibble denotes note on. -/
def MIDI_STATUS_NOTE_ON : Nat := 0x90

/-- Modelled from the spec: the macro `MIDI_IS_STATUS_NOTE_OFF` of `carla_midi.h`
(not among the sources): the high nibble of the status byte denotes note off. -/
def MIDI_IS_STATUS_NOTE_OFF (status : Nat) : Bool := status &&& 0xF0 == MIDI_STATUS_NOTE_OFF

/-- Modelled from the spec: the macro `MIDI_IS_STATUS_NOTE_ON` of `carla_midi.h`
(not among the sources): the high nibble of the status byte denotes note on. -/
def MIDI_IS_STATUS_NOTE_ON (status : Nat) : Bool := status &&& 0xF0 == MIDI_STATUS_NOTE_ON

/-- The call `QString::split(sep, QString::KeepEmptyParts)` for the one-character
separator `sep`: the pieces between the occurrences of `sep`, empty ones kept. -/
def QString_split (sep : Char) : List Char → List (List Char)
  | [] => [[]]
  | c :: cs =>
    if c = sep then [] :: QString_split sep cs
    else
      match QString_split sep cs with
      | [] => [[c]]
      | p :: ps => (c :: p) :: ps

/-! ## The handlers -/

/-- The method `CarlaBridgeOsc::handle_configure`. The three pointers passed to
`set_custom_data` are results of `toUtf8().constData()` on a temporary
`QByteArray` that is destroyed at the end of its declaration statement. -/
def handle_configure (K : BridgeMsgKeys) (self : CarlaBridgeOsc) (argc : Int)
    (argv : List lo_arg) (types : CStr) : Option Outcome :=
  match CARLA_BRIDGE_OSC_CHECK_OSC_TYPES argc types 2 "ss".toList with
  | some w => some ⟨1, self, [w]⟩
  | none =>
    match self.client with
    | none => some ⟨1, self, []⟩
    | some client => do
      let key ← (← argv[0]?).get_s
      let value ← (← argv[1]?).get_s
      if strcmp key K.CARLA_BRIDGE_MSG_SAVE_NOW = 0 then
        some ⟨0, self.call client (.quequeMessage .BRIDGE_MESSAGE_SAVE_NOW 0 0 .zero), []⟩
      else if strcmp key K.CARLA_BRIDGE_MSG_SET_CHUNK = 0 then
        some ⟨0, self.call client (.setChunkData (.live value)), []⟩
      else if strcmp key K.CARLA_BRIDGE_MSG_SET_CUSTOM = 0 then
        let vList := QString_split '·' value
        match vList with
        | [v0, v1, v2] =>
          let cType := ConstCharPtr.dangling v0
          let cKey := ConstCharPtr.dangling v1
          let cValue := ConstCharPtr.dangling v2
          some ⟨0, self.call client (.set_custom_data cType cKey cValue), []⟩
        | _ => some ⟨0, self, []⟩
      else
        some ⟨0, self, []⟩

/-- The method `CarlaBridgeOsc::handle_control`. -/
def handle_control (self : CarlaBridgeOsc) (argc : Int) (argv : List lo_arg) (types : CStr) :
    Option Outcome :=
  match CARLA_BRIDGE_OSC_CHECK_OSC_TYPES argc types 2 "if".toList with
  | some w => some ⟨1, self, [w]⟩
  | none =>
    match self.client with
    | none => some ⟨1, self, []⟩
    | some client => do
      let index ← (← argv[0]?).get_i
      let value ← (← argv[1]?).get_f
      some ⟨0, self.call client (.quequeMessage .MESSAGE_PARAMETER index 0 (.ofFloat value)), []⟩

/-- The method `CarlaBridgeOsc::handle_program`. -/
def handle_program (self : CarlaBridgeOsc) (argc : Int) (argv : List lo_arg) (types : CStr) :
    Option Outcome :=
  match CARLA_BRIDGE_OSC_CHECK_OSC_TYPES argc types 1 "i".toList with
  | some w => some ⟨1, self, [w]⟩
  | none =>
    match self.client with
    | none => some ⟨1, self, []⟩
    | some client => do
      let index ← (← argv[0]?).get_i
      some ⟨0, self.call client (.quequeMessage .MESSAGE_PROGRAM index 0 .zero), []⟩

/-- The method `CarlaBridgeOsc::handle_midi_program`. -/
def handle_midi_program (self : CarlaBridgeOsc) (argc : Int) (argv : List lo_arg)
    (types : CStr) : Option Outcome :=
  match CARLA_BRIDGE_OSC_CHECK_OSC_TYPES argc types 2 "ii".toList with
  | some w => some ⟨1, self, [w]⟩
  | none =>
    match self.client with
    | none => some ⟨1, self, []⟩
    | some client => do
      let bank ← (← argv[0]?).get_i
      let program ← (← argv[1]?).get_i
      some ⟨0, self.call client (.quequeMessage .MESSAGE_MIDI_PROGRAM bank program .zero), []⟩

/-- The method `CarlaBridgeOsc::handle_midi`. -/
def handle_midi (self : CarlaBridgeOsc) (argc : Int) (argv : List lo_arg) (types : CStr) :
    Option Outcome :=
  match CARLA_BRIDGE_OSC_CHECK_OSC_TYPES argc types 1 "m".toList with
  | some w => some ⟨1, self, [w]⟩
  | none =>
    match self.client with
    | none => some ⟨1, self, []⟩
    | some client => do
      let data ← (← argv[0]?).get_m
      let status : Nat := data.2.1.val
      -- Fix bad note-off
      let status : Nat :=
        if MIDI_IS_STATUS_NOTE_ON status && data.2.2.2.val == 0 then (status + 256 - 0x10) % 256
        else status
      if MIDI_IS_STATUS_NOTE_OFF status then
        let note : Nat := data.2.2.1.val
        some ⟨0, self.call client (.quequeMessage .MESSAGE_NOTE_OFF note 0 .zero), []⟩
      else if MIDI_IS_STATUS_NOTE_ON status then
        let note : Nat := data.2.2.1.val
        let velo : Nat := data.2.2.2.val
        some ⟨0, self.call client (.quequeMessage .MESSAGE_NOTE_ON note velo .zero), []⟩
      else
        some ⟨0, self, []⟩

/-- The method `CarlaBridgeOsc::handle_show`. -/
def handle_show (self : CarlaBridgeOsc) : Option Outcome :=
  match self.client with
  | none => some ⟨1, self, []⟩
  | some client => some ⟨0, self.call client (.quequeMessage .MESSAGE_SHOW_GUI 1 0 .zero), []⟩

/-- The method `CarlaBridgeOsc::handle_hide`. -/
def handle_hide (self : CarlaBridgeOsc) : Option Outcome :=
  match self.client with
  | none => some ⟨1, self, []⟩
  | some client => some ⟨0, self.call client (.quequeMessage .MESSAGE_SHOW_GUI 0 0 .zero), []⟩

/-- The method `CarlaBridgeOsc::handle_quit`. -/
def handle_quit (self : CarlaBridgeOsc) : Option Outcome :=
  match self.client with
  | none => some ⟨1, self, []⟩
  | some client => some ⟨0, self.call client (.quequeMessage .MESSAGE_QUIT 0 0 .zero), []⟩

/-- The method `CarlaBridgeOsc::handleMessage` (the `msg` argument is only traced). -/
def handleMessage (K : BridgeMsgKeys) (self : CarlaBridgeOsc) (path : CStr) (argc : Int)
    (argv : List lo_arg) (types : CStr) : Option Outcome :=
  -- Check if message is for this client
  if strlen path ≤ self.m_nameSize ∨ strncmp (path.drop 1) self.m_name self.m_nameSize ≠ 0 then
    some ⟨1, self, [Warning.AddressMismatch path self.m_name]⟩
  else
    let method := memcpy32 (path.drop (self.m_nameSize + 1))
    -- Common OSC methods
    if strcmp method "/configure".toList = 0 then handle_configure K self argc argv types
    else if strcmp method "/control".toList = 0 then handle_control self argc argv types
    else if strcmp method "/program".toList = 0 then handle_program self argc argv types
    else if strcmp method "/midi_program".toList = 0 then handle_midi_program self argc argv types
    else if strcmp method "/midi".toList = 0 then handle_midi self argc argv types
    else if strcmp method "/show".toList = 0 then handle_show self
    else if strcmp method "/hide".toList = 0 then handle_hide self
    else if strcmp method "/quit".toList = 0 then handle_quit self
    else some ⟨1, self, [Warning.UnsupportedMethod path method]⟩

/-! ## The status reporters -/

/-- Modelled from the spec: `global_osc_data`, the process-wide control channel
read by the reporters, is declared outside the sources, and so is the
transport; the model keeps the channel and records every `lo_send` made,
oldest first. -/
structure ProcessState where
  global_osc_data : CarlaOscData
  sent : List OscSend
  deriving DecidableEq

/-- The C function `strcpy` into an empty buffer `char dest[capacity]`; `none` when
the string and its terminator do not fit. -/
def strcpy (capacity : Nat) (src : CStr) : Option CStr :=
  if strlen src + 1 ≤ capacity then some src else none

/-- The C function `strcat` onto the string `dest` held in a buffer of `capacity`
bytes; `none` when the result and its terminator do not fit. -/
def strcat (capacity : Nat) (dest src : CStr) : Option CStr :=
  if strlen dest + strlen src + 1 ≤ capacity then some (dest ++ src) else none

/-- The liblo function `lo_send(target, path, types, ...)`, recorded. -/
def lo_send (w : ProcessState) (target : lo_address) (path types : CStr)
    (args : List lo_send_arg) : ProcessState :=
  { w with sent := w.sent ++ [⟨target, path, types, args⟩] }

/-- The function `osc_send_bridge_ains_peak`. -/
def osc_send_bridge_ains_peak (w : ProcessState) (index : Int) (value : CDouble) :
    Option ProcessState :=
  match w.global_osc_data.target with
  | none => some w
  | some target => do
    let path ← w.global_osc_data.path
    let target_path ← strcpy (strlen path + 18) path
    let target_path ← strcat (strlen path + 18) target_path "/bridge_ains_peak".toList
    some (lo_send w target target_path "if".toList
      [.int index, .double value])

/-- The function `osc_send_bridge_aouts_peak`. -/
def osc_send_bridge_aouts_peak (w : ProcessState) (index : Int) (value : CDouble) :
    Option ProcessState :=
  match w.global_osc_data.target with
  | none => some w
  | some target => do
    let path ← w.global_osc_data.path
    let target_path ← strcpy (strlen path + 19) path
    let target_path ← strcat (strlen path + 19) target_path "/bridge_aouts_peak".toList
    some (lo_send w target target_path "if".toList
      [.int index, .double value])

/-- The function `osc_send_bridge_audio_count`. -/
def osc_send_bridge_audio_count (w : ProcessState) (ins outs total : Int) :
    Option ProcessState :=
  match w.global_osc_data.target with
  | none => some w
  | some target => do
    let path ← w.global_osc_data.path
    let target_path ← strcpy (strlen path + 20) path
    let target_path ← strcat (strlen path + 20) target_path "/bridge_audio_count".toList
    some (lo_send w target target_path "iii".toList
      [.int ins, .int outs, .int total])

/-- The function `osc_send_bridge_midi_count`. -/
def osc_send_bridge_midi_count (w : ProcessState) (ins outs total : Int) :
    Option ProcessState :=
  match w.global_osc_data.target with
  | none => some w
  | some target => do
    let path ← w.global_osc_data.path
    let target_path ← strcpy (strlen path + 19) path
    let target_path ← strcat (strlen path + 19) target_path "/bridge_midi_count".toList
    some (lo_send w target target_path "iii".toList
      [.int ins, .int outs, .int total])

/-- The function `osc_send_bridge_param_count`. -/
def osc_send_bridge_param_count (w : ProcessState) (ins outs total : Int) :
    Option ProcessState :=
  match w.global_osc_data.target with
  | none => some w
  | some target => do
    let path ← w.global_osc_data.path
    let target_path ← strcpy (strlen path + 20) path
    let target_path ← strcat (strlen path + 20) target_path "/bridge_param_count".toList
    some (lo_send w target target_path "iii".toList
      [.int ins, .int outs, .int total])

/-- The function `osc_send_bridge_program_count`. -/
def osc_send_bridge_program_count (w : ProcessState) (count : Int) :
    Option ProcessState :=
  match w.global_osc_data.target with
  | none => some w
  | some target => do
    let path ← w.global_osc_data.path
    let target_path ← strcpy (strlen path + 22) path
    let target_path ← strcat (strlen path + 22) target_path "/bridge_program_count".toList
    some (lo_send w target target_path "i".toList
      [.int count])

/-- The function `osc_send_bridge_midi_program_count`. -/
def osc_send_bridge_midi_program_count (w : ProcessState) (count : Int) :
    Option ProcessState :=
  match w.global_osc_data.target with
  | none => some w
  | some target => do
    let path ← w.global_osc_data.path
    let target_path ← strcpy (strlen path + 27) path
    let target_path ← strcat (strlen path + 27) target_path "/bridge_midi_program_count".toList
    some (lo_send w target target_path "i".toList
      [.int count])

/-- The function `osc_send_bridge_plugin_info`. -/
def osc_send_bridge_plugin_info (w : ProcessState) (category hints : Int)
    (name label maker copyright : CStr) (uniqueId : Int) : Option ProcessState :=
  match w.global_osc_data.target with
  | none => some w
  | some target => do
    let path ← w.global_osc_data.path
    let target_path ← strcpy (strlen path + 20) path
    let target_path ← strcat (strlen path + 20) target_path "/bridge_plugin_info".toList
    some (lo_send w target target_path "iissssi".toList
      [.int category, .int hints, .string name, .string label, .string maker, .string copyright,
        .long uniqueId])

/-- The function `osc_send_bridge_param_info`. -/
def osc_send_bridge_param_info (w : ProcessState) (index : Int) (name unit : CStr) :
    Option ProcessState :=
  match w.global_osc_data.target with
  | none => some w
  | some target => do
    let path ← w.global_osc_data.path
    let target_path ← strcpy (strlen path + 19) path
    let target_path ← strcat (strlen path + 19) target_path "/bridge_param_info".toList
    some (lo_send w target target_path "iss".toList
      [.int index, .string name, .string unit])

/-- The function `osc_send_bridge_param_data`. -/
def osc_send_bridge_param_data (w : ProcessState)
    (index type rindex hints midi_channel midi_cc : Int) : Option ProcessState :=
  match w.global_osc_data.target with
  | none => some w
  | some target => do
    let path ← w.global_osc_data.path
    let target_path ← strcpy (strlen path + 19) path
    let target_path ← strcat (strlen path + 19) target_path "/bridge_param_data".toList
    some (lo_send w target target_path "iiiiii".toList
      [.int index, .int type, .int rindex, .int hints, .int midi_channel, .int midi_cc])

/-- The function `osc_send_bridge_param_ranges`. -/
def osc_send_bridge_param_ranges (w : ProcessState) (index : Int)
    (def_ min max step step_small step_large : CDouble) :
    Option ProcessState :=
  match w.global_osc_data.target with
  | none => some w
  | some target => do
    let path ← w.global_osc_data.path
    let target_path ← strcpy (strlen path + 21) path
    let target_path ← strcat (strlen path + 21) target_path "/bridge_param_ranges".toList
    some (lo_send w target target_path "iffffff".toList
      [.int index, .double def_, .double min, .double max, .double step, .double step_small,
        .double step_large])

/-- The function `osc_send_bridge_program_info`. -/
def osc_send_bridge_program_info (w : ProcessState) (index : Int) (name : CStr) :
    Option ProcessState :=
  match w.global_osc_data.target with
  | none => some w
  | some target => do
    let path ← w.global_osc_data.path
    let target_path ← strcpy (strlen path + 21) path
    let target_path ← strcat (strlen path + 21) target_path "/bridge_program_info".toList
    some (lo_send w target target_path "is".toList
      [.int index, .string name])

/-- The function `osc_send_bridge_midi_program_info`. -/
def osc_send_bridge_midi_program_info (w : ProcessState) (index bank program : Int)
    (label : CStr) :
    Option ProcessState :=
  match w.global_osc_data.target with
  | none => some w
  | some target => do
    let path ← w.global_osc_data.path
    let target_path ← strcpy (strlen path + 26) path
    let target_path ← strcat (strlen path + 26) target_path "/bridge_midi_program_info".toList
    some (lo_send w target target_path "iiis".toList
      [.int index, .int bank, .int program, .string label])

/-- The function `osc_send_bridge_custom_data`. -/
def osc_send_bridge_custom_data (w : ProcessState) (stype key value : CStr) :
    Option ProcessState :=
  match w.global_osc_data.target with
  | none => some w
  | some target => do
    let path ← w.global_osc_data.path
    let target_path ← strcpy (strlen path + 20) path
    let target_path ← strcat (strlen path + 20) target_path "/bridge_custom_data".toList
    some (lo_send w target target_path "sss".toList
      [.string stype, .string key, .string value])

/-- The function `osc_send_bridge_chunk_data`. -/
def osc_send_bridge_chunk_data (w : ProcessState) (string_data : CStr) :
    Option ProcessState :=
  match w.global_osc_data.target with
  | none => some w
  | some target => do
    let path ← w.global_osc_data.path
    let target_path ← strcpy (strlen path + 19) path
    let target_path ← strcat (strlen path + 19) target_path "/bridge_chunk_data".toList
    some (lo_send w target target_path "s".toList
      [.string string_data])

/-- The function `osc_send_bridge_update`. -/
def osc_send_bridge_update (w : ProcessState) :
    Option ProcessState :=
  match w.global_osc_data.target with
  | none => some w
  | some target => do
    let path ← w.global_osc_data.path
    let target_path ← strcpy (strlen path + 15) path
    let target_path ← strcat (strlen path + 15) target_path "/bridge_update".toList
    some (lo_send w target target_path "".toList
      [])

/-! ## The lifecycle -/

/-- The answers of liblo that `init` depends on: the host name, port and path it
derives from a URL (`none` for a null result), and the URL of the server
thread that `lo_server_thread_new` creates (`none` when it creates none). -/
structure liblo where
  lo_url_get_hostname : CStr → Option CStr
  lo_url_get_port : CStr → Option CStr
  lo_url_get_path : CStr → Option CStr
  lo_server_thread_get_url : Option CStr

/-- The liblo function `lo_address_new(host, port)`. -/
def lo_address_new (host port : Option CStr) : Option lo_address := some ⟨host, port⟩

/-- Modelled from the spec: the function `osc_clear_data` is defined in a header
that is not among the sources. It releases the control channel: the reply path
and the addresses are freed and the three pointers are cleared. -/
def osc_clear_data (_oscData : CarlaOscData) : CarlaOscData :=
  { path := none, source := none, target := none }

/-- The calls with an outside effect that `init` and `close` make, in the order
they are made. -/
inductive LifecycleStep
  | lo_address_new (host port : Option CStr)
  /-- The line `failed to init OSC`, logged with `qWarning`. -/
  | warning_failed_to_init (url : CStr)
  | lo_server_thread_new
  | lo_server_thread_add_method
  | lo_server_thread_start
  | osc_clear_data
  | lo_server_thread_stop
  | lo_server_thread_del_method
  | lo_server_thread_free
  /-- The call `free((void*)m_serverPath)`. -/
  | free_m_serverPath
  deriving DecidableEq

/-- What a call of `init` leaves behind: the value returned, the endpoint, and the
steps made. -/
structure InitResult where
  ret : Bool
  self : CarlaBridgeOsc
  steps : List LifecycleStep
  deriving DecidableEq

/-- The check `Q_ASSERT(! m_serverThread)` at the head of `init`. -/
def init_assert (self : CarlaBridgeOsc) : Bool := self.m_serverThread.isNone

/-- The method `CarlaBridgeOsc::init`. The server path is the URL of the server
thread followed by the name (the thread URL is taken to hold no `%1`). The
result is `none` when no server thread could be created, whose URL is then
read through a null pointer. -/
def init (T : liblo) (self : CarlaBridgeOsc) (url : CStr) : Option InitResult :=
  let host := T.lo_url_get_hostname url
  let port := T.lo_url_get_port url
  let self : CarlaBridgeOsc :=
    { self with m_controlData := { self.m_controlData with path := T.lo_url_get_path url } }
  let self : CarlaBridgeOsc :=
    { self with m_controlData := { self.m_controlData with target := lo_address_new host port } }
  if self.m_controlData.path.isNone then
    some ⟨false, self, [.lo_address_new host port, .warning_failed_to_init url]⟩
  else do
    -- create new OSC thread
    let self : CarlaBridgeOsc :=
      { self with m_serverThread := some ⟨false, false, false⟩ }
    -- get our full OSC server path
    let threadPath ← T.lo_server_thread_get_url
    let self : CarlaBridgeOsc := { self with m_serverPath := some (threadPath ++ self.m_name) }
    -- register message handler and start OSC thread
    let self : CarlaBridgeOsc :=
      { self with m_serverThread := some ⟨true, true, false⟩ }
    some ⟨true, self, [.lo_address_new host port, .lo_server_thread_new,
      .lo_server_thread_add_method, .lo_server_thread_start]⟩

/-- What a call of `close` leaves behind: the endpoint and the steps made. -/
structure CloseResult where
  self : CarlaBridgeOsc
  steps : List LifecycleStep
  deriving DecidableEq

/-- The check `Q_ASSERT(m_serverThread)` at the head of `close`. -/
def close_assert (self : CarlaBridgeOsc) : Bool := self.m_serverThread.isSome

/-- The method `CarlaBridgeOsc::close`. The result is `none` when
`lo_server_thread_stop` is called with a null pointer or with a pointer to a
thread that has been freed. -/
def close (self : CarlaBridgeOsc) : Option CloseResult :=
  let self : CarlaBridgeOsc := { self with m_controlData := osc_clear_data self.m_controlData }
  match self.m_serverThread with
  | none => none
  | some thread =>
    if thread.freed then none
    else
      let thread : lo_server_thread := { thread with started := false }
      let thread : lo_server_thread := { thread with has_method := false }
      let thread : lo_server_thread := { thread with freed := true }
      let self : CarlaBridgeOsc := { self with m_serverThread := some thread }
      let self : CarlaBridgeOsc := { self with m_serverPath := none }
      some ⟨self, [.osc_clear_data, .lo_server_thread_stop, .lo_server_thread_del_method,
        .lo_server_thread_free, .free_m_serverPath]⟩

/-- The states an endpoint constructed with `client_` and `name` can be in: the
state after the constructor, and the state after any operation made in such
a state (`init`, `close`, `handleMessage` and the eight handlers). The status
reporters work on the process state and have no access to the endpoint. -/
inductive Reachable (client_ : Option CarlaBridgeClient) (name : CStr) : CarlaBridgeOsc → Prop
  | constructed : Reachable client_ name (CarlaBridgeOsc.new client_ name)
  | init (s : CarlaBridgeOsc) (T : liblo) (url : CStr) (r : InitResult) :
      Reachable client_ name s → init T s url = some r → Reachable client_ name r.self
  | close (s : CarlaBridgeOsc) (r : CloseResult) :
      Reachable client_ name s → close s = some r → Reachable client_ name r.self
  | handleMessage (s : CarlaBridgeOsc) (K : BridgeMsgKeys) (path : CStr) (argc : Int)
      (argv : List lo_arg) (types : CStr) (r : Outcome) :
      Reachable client_ name s → handleMessage K s path argc argv types = some r →
      Reachable client_ name r.self
  | handle_configure (s : CarlaBridgeOsc) (K : BridgeMsgKeys) (argc : Int)
      (argv : List lo_arg) (types : CStr) (r : Outcome) :
      Reachable client_ name s → handle_configure K s argc argv types = some r →
      Reachable client_ name r.self
  | handle_control (s : CarlaBridgeOsc) (argc : Int) (argv : List lo_arg) (types : CStr)
      (r : Outcome) :
      Reachable client_ name s → handle_control s argc argv types = some r →
      Reachable client_ name r.self
  | handle_program (s : CarlaBridgeOsc) (argc : Int) (argv : List lo_arg) (types : CStr)
      (r : Outcome) :
      Reachable client_ name s → handle_program s argc argv types = some r →
      Reachable client_ name r.self
  | handle_midi_program (s : CarlaBridgeOsc) (argc : Int) (argv : List lo_arg) (types : CStr)
      (r : Outcome) :
      Reachable client_ name s → handle_midi_program s argc argv types = some r →
      Reachable client_ name r.self
  | handle_midi (s : CarlaBridgeOsc) (argc : Int) (argv : List lo_arg) (types : CStr)
      (r : Outcome) :
      Reachable client_ name s → handle_midi s argc argv types = some r →
      Reachable client_ name r.self
  | handle_show (s : CarlaBridgeOsc) (r : Outcome) :
      Reachable client_ name s → handle_show s = some r → Reachable client_ name r.self
  | handle_hide (s : CarlaBridgeOsc) (r : Outcome) :
      Reachable client_ name s → handle_hide s = some r → Reachable client_ name r.self
  | handle_quit (s : CarlaBridgeOsc) (r : Outcome) :
      Reachable client_ name s → handle_quit s = some r → Reachable client_ name r.self

/-! ## Sample values -/

/-- A sample transport: a URL has a path only when it is `osc.udp://localhost:9000/ctrl`;
server threads get the URL `osc.udp://bridge:7000/`. -/
def sampleTransport : liblo :=
  { lo_url_get_hostname := fun _ => some "localhost".toList
    lo_url_get_port := fun _ => some "9000".toList
    lo_url_get_path := fun url =>
      if url = "osc.udp://localhost:9000/ctrl".toList then some "/ctrl".toList else none
    lo_server_thread_get_url := some "osc.udp://bridge:7000/".toList }


/-- Sample values for the three `configure` keys. -/
def sampleKeys : BridgeMsgKeys :=
  { CARLA_BRIDGE_MSG_SAVE_NOW := "CarlaBridgeSaveNow".toList
    CARLA_BRIDGE_MSG_SET_CHUNK := "CarlaBridgeSetChunk".toList
    CARLA_BRIDGE_MSG_SET_CUSTOM := "CarlaBridgeSetCustom".toList }

/-- A client that has received no call yet. -/
def freshClient : CarlaBridgeClient := ⟨[]⟩

/-- A sample endpoint: constructed with a fresh client and the name `abc`. -/
def sampleEndpoint : CarlaBridgeOsc := CarlaBridgeOsc.new (some freshClient) "abc".toList

/-- A process state without target, that has sent nothing. -/
def idleProcess : ProcessState :=
  { global_osc_data := { path := none, source := none, target := none }, sent := [] }

/-- A sample target address. -/
def sampleTarget : lo_address := { host := some "localhost".toList, port := some "9000".toList }

/-- A process state with the sample target and the reply path `/ctrl`, that has
sent nothing. -/
def reportingProcess : ProcessState :=
  { global_osc_data :=
      { path := some "/ctrl".toList, source := none, target := some sampleTarget }
    sent := [] }

/-- The sample endpoint while it listens: the state `init` leaves with the sample
transport and the URL `osc.udp://localhost:9000/ctrl`. -/
def listeningEndpoint : CarlaBridgeOsc :=
  { client := some freshClient
    m_serverPath := some "osc.udp://bridge:7000/abc".toList
    m_serverThread := some ⟨true, true, false⟩
    m_controlData := { path := some "/ctrl".toList, source := none, target := some sampleTarget }
    m_name := "abc".toList
    m_nameSize := 3 }

/-! ## Auxiliary facts -/

/-- A list whose first `n` elements form a list shorter than `n` is that list. -/
theorem eq_of_take_eq_short {α : Type} (l m : List α) (n : Nat) (h : l.take n = m)
    (hm : m.length < n) : l = m := by
  have hlen : (l.take n).length = m.length := by rw [h]
  rw [List.length_take] at hlen
  have hl : l.length ≤ n := by omega
  rw [List.take_of_length_le hl] at h
  exact h

/-- The test `strcmp(a, b) == 0` is equality of the strings. -/
theorem strcmp_eq_zero_iff (a b : CStr) : strcmp a b = 0 ↔ a = b := by
  unfold strcmp
  split <;> simp_all

/-- A path made of one character, the name, and a remainder passes the test
"is this message for this client". -/
theorem address_check_passes (self : CarlaBridgeOsc) (c0 : Char) (rest : CStr)
    (hn : self.m_nameSize = strlen self.m_name) :
    ¬ (strlen (c0 :: self.m_name ++ rest) ≤ self.m_nameSize ∨
        strncmp ((c0 :: self.m_name ++ rest).drop 1) self.m_name self.m_nameSize ≠ 0) := by
  rw [hn]
  simp [strlen, strncmp]
  omega

/-- The method buffer of such a path holds the first 32 characters of the remainder. -/
theorem method_buffer_eq (self : CarlaBridgeOsc) (c0 : Char) (rest : CStr)
    (hn : self.m_nameSize = strlen self.m_name) :
    memcpy32 ((c0 :: self.m_name ++ rest).drop (self.m_nameSize + 1)) = rest.take 32 := by
  rw [hn]
  simp [strlen, memcpy32]

/-- The body of `handleMessage` on a path made of one character, the name, and a
remainder: the comparisons of the method buffer decide. -/
theorem handleMessage_of_address (K : BridgeMsgKeys) (self : CarlaBridgeOsc) (c0 : Char)
    (rest : CStr) (argc : Int) (argv : List lo_arg) (types : CStr)
    (hn : self.m_nameSize = strlen self.m_name) :
    handleMessage K self (c0 :: self.m_name ++ rest) argc argv types =
      if rest.take 32 = "/configure".toList then handle_configure K self argc argv types
      else if rest.take 32 = "/control".toList then handle_control self argc argv types
      else if rest.take 32 = "/program".toList then handle_program self argc argv types
      else if rest.take 32 = "/midi_program".toList then
        handle_midi_program self argc argv types
      else if rest.take 32 = "/midi".toList then handle_midi self argc argv types
      else if rest.take 32 = "/show".toList then handle_show self
      else if rest.take 32 = "/hide".toList then handle_hide self
      else if rest.take 32 = "/quit".toList then handle_quit self
      else some ⟨1, self, [Warning.UnsupportedMethod (c0 :: self.m_name ++ rest)
        (rest.take 32)]⟩ := by
  unfold handleMessage
  rw [if_neg (address_check_passes self c0 rest hn)]
  simp only [method_buffer_eq self c0 rest hn, strcmp_eq_zero_iff]

/-- The note-on test holds exactly for the status bytes with high nibble 9. -/
theorem note_on_iff (s : uint8_t) : MIDI_IS_STATUS_NOTE_ON s.val = true ↔ s.val / 16 = 9 := by
  revert s
  set_option maxRecDepth 100000 in decide

/-- The note-off test holds exactly for the status bytes with high nibble 8. -/
theorem note_off_iff (s : uint8_t) : MIDI_IS_STATUS_NOTE_OFF s.val = true ↔ s.val / 16 = 8 := by
  revert s
  set_option maxRecDepth 100000 in decide

/-- Taking `0x10` off a note-on status byte gives a note-off status byte. -/
theorem note_off_of_note_on_sub (s : uint8_t) (h : s.val / 16 = 9) :
    MIDI_IS_STATUS_NOTE_OFF ((s.val + 256 - 0x10) % 256) = true := by
  revert s
  set_option maxRecDepth 100000 in decide

/-- What `handle_midi` does with a well-shaped message, by cases on the status
byte and the velocity byte. -/
theorem handle_midi_well_shaped (self : CarlaBridgeOsc) (client : CarlaBridgeClient)
    (hc : self.client = some client) (b0 status d1 d2 : uint8_t) :
    handle_midi self 1 [lo_arg.m b0 status d1 d2] "m".toList =
      if status.val / 16 = 8 ∨ (status.val / 16 = 9 ∧ d2.val = 0) then
        some ⟨0, self.call client (.quequeMessage .MESSAGE_NOTE_OFF d1.val 0 .zero), []⟩
      else if status.val / 16 = 9 then
        some ⟨0, self.call client (.quequeMessage .MESSAGE_NOTE_ON d1.val d2.val .zero), []⟩
      else some ⟨0, self, []⟩ := by
  have hchk : CARLA_BRIDGE_OSC_CHECK_OSC_TYPES 1 "m".toList 1 "m".toList = none := by decide
  unfold handle_midi
  simp only [hchk, hc, List.getElem?_cons_zero, lo_arg.get_m, Option.bind_eq_bind,
    Option.some_bind]
  by_cases h9 : status.val / 16 = 9
  · have hon := (note_on_iff status).2 h9
    by_cases hd : d2.val = 0
    · have hoff := note_off_of_note_on_sub status h9
      have h240 : status.val + 256 - 0x10 = status.val + 240 := by omega
      rw [h240] at hoff
      simp [h9, hd, hon, hoff]
    · have h8 : ¬ MIDI_IS_STATUS_NOTE_OFF status.val = true := by
        rw [note_off_iff]; omega
      simp [h9, hd, hon, h8]
  · have hon : ¬ MIDI_IS_STATUS_NOTE_ON status.val = true := by
      rw [note_on_iff]; exact h9
    by_cases h8 : status.val / 16 = 8
    · have hoff := (note_off_iff status).2 h8
      simp [h8, hon, hoff]
    · have hoff : ¬ MIDI_IS_STATUS_NOTE_OFF status.val = true := by
        rw [note_off_iff]; exact h8
      simp [h8, h9, hon, hoff]

/-! ## Splitting at the delimiter -/

/-- Splitting gives at least one piece. -/
theorem QString_split_ne_nil (sep : Char) (s : List Char) : QString_split sep s ≠ [] := by
  cases s with
  | nil => simp [QString_split]
  | cons c cs =>
    unfold QString_split
    split
    · simp
    · split <;> simp

/-- A string without separator is its own single piece. -/
theorem QString_split_of_not_mem (sep : Char) (t : List Char) (h : sep ∉ t) :
    QString_split sep t = [t] := by
  induction t with
  | nil => rfl
  | cons c cs ih =>
    have hc : c ≠ sep := fun e => h (by simp [e])
    have hcs : sep ∉ cs := fun e => h (List.mem_cons_of_mem c e)
    unfold QString_split
    rw [if_neg hc, ih hcs]

/-- The first piece of `t ++ sep :: rest`, for `t` without separator, is `t`, and
the other pieces are those of `rest`. -/
theorem QString_split_append (sep : Char) (t rest : List Char) (h : sep ∉ t) :
    QString_split sep (t ++ sep :: rest) = t :: QString_split sep rest := by
  induction t with
  | nil =>
    show QString_split sep (sep :: rest) = _
    rw [QString_split, if_pos rfl]
  | cons c cs ih =>
    have hc : c ≠ sep := fun e => h (by simp [e])
    have hcs : sep ∉ cs := fun e => h (List.mem_cons_of_mem c e)
    show QString_split sep (c :: (cs ++ sep :: rest)) = _
    rw [QString_split, if_neg hc, ih hcs]

/-- The number of pieces is the number of separators plus one. -/
theorem QString_split_length (sep : Char) (s : List Char) :
    (QString_split sep s).length = s.count sep + 1 := by
  induction s with
  | nil => rfl
  | cons c cs ih =>
    unfold QString_split
    by_cases hc : c = sep
    · rw [if_pos hc, List.length_cons, ih, hc, List.count_cons_self]
    · rw [if_neg hc]
      have hcount : (c :: cs).count sep = cs.count sep := by
        rw [List.count_cons_of_ne (Ne.symm hc)]
      rw [hcount, ← ih]
      cases hq : QString_split sep cs with
      | nil => exact absurd hq (QString_split_ne_nil sep cs)
      | cons p ps => rfl

/-- Three fields without separator, joined by the separator, split into the
three fields. -/
theorem QString_split_triple (sep : Char) (t k v : List Char) (ht : sep ∉ t) (hk : sep ∉ k)
    (hv : sep ∉ v) : QString_split sep (t ++ sep :: (k ++ sep :: v)) = [t, k, v] := by
  rw [QString_split_append sep t _ ht, QString_split_append sep k _ hk,
    QString_split_of_not_mem sep v hv]

/-! ## The `configure` handler -/

/-- What `handle_configure` does with a well-shaped message, by cases on the key. -/
theorem handle_configure_well_shaped (K : BridgeMsgKeys) (self : CarlaBridgeOsc)
    (client : CarlaBridgeClient) (hc : self.client = some client) (key value : CStr) :
    handle_configure K self 2 [lo_arg.s key, lo_arg.s value] "ss".toList =
      if key = K.CARLA_BRIDGE_MSG_SAVE_NOW then
        some ⟨0, self.call client (.quequeMessage .BRIDGE_MESSAGE_SAVE_NOW 0 0 .zero), []⟩
      else if key = K.CARLA_BRIDGE_MSG_SET_CHUNK then
        some ⟨0, self.call client (.setChunkData (.live value)), []⟩
      else if key = K.CARLA_BRIDGE_MSG_SET_CUSTOM then
        match QString_split '·' value with
        | [v0, v1, v2] =>
          some ⟨0, self.call client
            (.set_custom_data (.dangling v0) (.dangling v1) (.dangling v2)), []⟩
        | _ => some ⟨0, self, []⟩
      else some ⟨0, self, []⟩ := by
  have hchk : CARLA_BRIDGE_OSC_CHECK_OSC_TYPES 2 "ss".toList 2 "ss".toList = none := by decide
  unfold handle_configure
  simp only [hchk, hc, strcmp_eq_zero_iff]
  rfl

/-- A value whose number of delimiters is not two does not split into three. -/
theorem split_not_three (self : CarlaBridgeOsc) (client : CarlaBridgeClient) (value : CStr)
    (h : value.count '·' ≠ 2) :
    (match QString_split '·' value with
      | [v0, v1, v2] =>
        some (Outcome.mk 0 (self.call client
          (.set_custom_data (.dangling v0) (.dangling v1) (.dangling v2))) [])
      | _ => some ⟨0, self, []⟩) = some ⟨0, self, []⟩ := by
  have hl := QString_split_length '·' value
  split
  · rename_i v0 v1 v2 heq
    rw [heq] at hl
    simp at hl
    omega
  · rfl

/-- C8: on an endpoint with a client, and with the three `configure` keys being
three different strings, every well-shaped `configure` message (2 arguments,
signature "ss") returns 0 and logs no rejection; a key that is none of the
three makes no call on the client; the set-custom key with a value whose
number of `·` is not two makes no call on the client; the save-now key makes
exactly the call `quequeMessage(BRIDGE_MESSAGE_SAVE_NOW, 0, 0, 0.0)`; the
set-chunk key makes exactly the call `setChunkData(value)`. -/
theorem handle_configure_outcomes (K : BridgeMsgKeys) (self : CarlaBridgeOsc)
    (client : CarlaBridgeClient) (hc : self.client = some client)
    (hd1 : K.CARLA_BRIDGE_MSG_SET_CHUNK ≠ K.CARLA_BRIDGE_MSG_SAVE_NOW)
    (hd2 : K.CARLA_BRIDGE_MSG_SET_CUSTOM ≠ K.CARLA_BRIDGE_MSG_SAVE_NOW)
    (hd3 : K.CARLA_BRIDGE_MSG_SET_CUSTOM ≠ K.CARLA_BRIDGE_MSG_SET_CHUNK) :
    (∀ key value : CStr, ∃ r : Outcome,
      handle_configure K self 2 [lo_arg.s key, lo_arg.s value] "ss".toList = some r ∧
        r.ret = 0 ∧ r.log = []) ∧
    (∀ key value : CStr, key ≠ K.CARLA_BRIDGE_MSG_SAVE_NOW →
      key ≠ K.CARLA_BRIDGE_MSG_SET_CHUNK → key ≠ K.CARLA_BRIDGE_MSG_SET_CUSTOM →
      handle_configure K self 2 [lo_arg.s key, lo_arg.s value] "ss".toList =
        some ⟨0, self, []⟩) ∧
    (∀ value : CStr, value.count '·' ≠ 2 →
      handle_configure K self 2 [lo_arg.s K.CARLA_BRIDGE_MSG_SET_CUSTOM, lo_arg.s value]
        "ss".toList = some ⟨0, self, []⟩) ∧
    (∀ value : CStr,
      handle_configure K self 2 [lo_arg.s K.CARLA_BRIDGE_MSG_SAVE_NOW, lo_arg.s value]
        "ss".toList =
          some ⟨0, self.call client (.quequeMessage .BRIDGE_MESSAGE_SAVE_NOW 0 0 .zero), []⟩) ∧
    (∀ value : CStr,
      handle_configure K self 2 [lo_arg.s K.CARLA_BRIDGE_MSG_SET_CHUNK, lo_arg.s value]
        "ss".toList = some ⟨0, self.call client (.setChunkData (.live value)), []⟩) := by
  refine ⟨?_, ?_, ?_, ?_, ?_⟩
  · intro key value
    rw [handle_configure_well_shaped K self client hc key value]
    split
    · exact ⟨_, rfl, rfl, rfl⟩
    · split
      · exact ⟨_, rfl, rfl, rfl⟩
      · split
        · split
          · exact ⟨_, rfl, rfl, rfl⟩
          · exact ⟨_, rfl, rfl, rfl⟩
        · exact ⟨_, rfl, rfl, rfl⟩
  · intro key value h1 h2 h3
    rw [handle_configure_well_shaped K self client hc key value, if_neg h1, if_neg h2,
      if_neg h3]
  · intro value hv
    rw [handle_configure_well_shaped K self client hc _ value, if_neg hd2, if_neg hd3,
      if_pos rfl]
    exact split_not_three self client value hv
  · intro value
    rw [handle_configure_well_shaped K self client hc _ value, if_pos rfl]
  · intro value
    rw [handle_configure_well_shaped K self client hc _ value, if_neg hd1, if_pos rfl]

/-- Witness of C8: the value `onlyOneField` under the set-custom key, sent to the
sample endpoint, is handled and makes no call on the client. -/
theorem handle_configure_outcomes_witness :
    sampleEndpoint.client = some freshClient ∧
      sampleKeys.CARLA_BRIDGE_MSG_SET_CHUNK ≠ sampleKeys.CARLA_BRIDGE_MSG_SAVE_NOW ∧
      sampleKeys.CARLA_BRIDGE_MSG_SET_CUSTOM ≠ sampleKeys.CARLA_BRIDGE_MSG_SAVE_NOW ∧
      sampleKeys.CARLA_BRIDGE_MSG_SET_CUSTOM ≠ sampleKeys.CARLA_BRIDGE_MSG_SET_CHUNK ∧
      handle_configure sampleKeys sampleEndpoint 2
        [lo_arg.s sampleKeys.CARLA_BRIDGE_MSG_SET_CUSTOM, lo_arg.s "onlyOneField".toList]
        "ss".toList = some ⟨0, sampleEndpoint, []⟩ :=
  ⟨rfl, by decide, by decide, by decide,
    (handle_configure_outcomes sampleKeys sampleEndpoint freshClient rfl (by decide) (by decide)
      (by decide)).2.2.1 "onlyOneField".toList (by decide)⟩

/-- C7: for all strings `t`, `k`, `v` without the delimiter `·` (empty strings
included), a `configure` message with the set-custom key and the value
`t·k·v` is split into exactly the fields `t`, `k`, `v`, and `set_custom_data`
is called once with the fields in that order; but each of the three pointers
it is called with points into a `QByteArray` temporary that was destroyed at
the end of the declaration that took the pointer, so the client is not handed
the strings `t`, `k`, `v` themselves: no call with live pointers is made. -/
theorem set_custom_passes_dangling_pointers (K : BridgeMsgKeys) (self : CarlaBridgeOsc)
    (client : CarlaBridgeClient) (hc : self.client = some client)
    (hd2 : K.CARLA_BRIDGE_MSG_SET_CUSTOM ≠ K.CARLA_BRIDGE_MSG_SAVE_NOW)
    (hd3 : K.CARLA_BRIDGE_MSG_SET_CUSTOM ≠ K.CARLA_BRIDGE_MSG_SET_CHUNK)
    (t k v : CStr) (ht : '·' ∉ t) (hk : '·' ∉ k) (hv : '·' ∉ v) :
    handle_configure K self 2
        [lo_arg.s K.CARLA_BRIDGE_MSG_SET_CUSTOM, lo_arg.s (t ++ '·' :: (k ++ '·' :: v))]
        "ss".toList =
        some ⟨0, self.call client
          (.set_custom_data (.dangling t) (.dangling k) (.dangling v)), []⟩ ∧
      handle_configure K self 2
        [lo_arg.s K.CARLA_BRIDGE_MSG_SET_CUSTOM, lo_arg.s (t ++ '·' :: (k ++ '·' :: v))]
        "ss".toList ≠
        some ⟨0, self.call client (.set_custom_data (.live t) (.live k) (.live v)), []⟩ := by
  have h : handle_configure K self 2
      [lo_arg.s K.CARLA_BRIDGE_MSG_SET_CUSTOM, lo_arg.s (t ++ '·' :: (k ++ '·' :: v))]
      "ss".toList =
      some ⟨0, self.call client
        (.set_custom_data (.dangling t) (.dangling k) (.dangling v)), []⟩ := by
    rw [handle_configure_well_shaped K self client hc, if_neg hd2, if_neg hd3, if_pos rfl,
      QString_split_triple '·' t k v ht hk hv]
  refine ⟨h, ?_⟩
  rw [h]
  simp [CarlaBridgeOsc.call, CarlaBridgeClient.record]

/-- Witness of C7: the value `lv2·myKey·42` under the set-custom key, sent to the
sample endpoint. -/
theorem set_custom_passes_dangling_pointers_witness :
    sampleEndpoint.client = some freshClient ∧
      handle_configure sampleKeys sampleEndpoint 2
        [lo_arg.s sampleKeys.CARLA_BRIDGE_MSG_SET_CUSTOM, lo_arg.s "lv2·myKey·42".toList]
        "ss".toList =
        some ⟨0, sampleEndpoint.call freshClient
          (.set_custom_data (.dangling "lv2".toList) (.dangling "myKey".toList)
            (.dangling "42".toList)), []⟩ :=
  ⟨rfl, (set_custom_passes_dangling_pointers sampleKeys sampleEndpoint freshClient rfl
    (by decide) (by decide) "lv2".toList "myKey".toList "42".toList (by decide) (by decide)
    (by decide)).1⟩

/-! ## Dispatch -/

/-- A message for `/<name>/configure` is passed to `handle_configure`. -/
theorem handleMessage_configure (K : BridgeMsgKeys) (self : CarlaBridgeOsc) (argc : Int)
    (argv : List lo_arg) (types : CStr) (hn : self.m_nameSize = strlen self.m_name) :
    handleMessage K self ('/' :: self.m_name ++ "/configure".toList) argc argv types =
      handle_configure K self argc argv types := by
  rw [handleMessage_of_address K self '/' _ argc argv types hn]
  rfl

/-- A message for `/<name>/control` is passed to `handle_control`. -/
theorem handleMessage_control (K : BridgeMsgKeys) (self : CarlaBridgeOsc) (argc : Int)
    (argv : List lo_arg) (types : CStr) (hn : self.m_nameSize = strlen self.m_name) :
    handleMessage K self ('/' :: self.m_name ++ "/control".toList) argc argv types =
      handle_control self argc argv types := by
  rw [handleMessage_of_address K self '/' _ argc argv types hn]
  rfl

/-- A message for `/<name>/program` is passed to `handle_program`. -/
theorem handleMessage_program (K : BridgeMsgKeys) (self : CarlaBridgeOsc) (argc : Int)
    (argv : List lo_arg) (types : CStr) (hn : self.m_nameSize = strlen self.m_name) :
    handleMessage K self ('/' :: self.m_name ++ "/program".toList) argc argv types =
      handle_program self argc argv types := by
  rw [handleMessage_of_address K self '/' _ argc argv types hn]
  rfl

/-- A message for `/<name>/midi_program` is passed to `handle_midi_program`. -/
theorem handleMessage_midi_program (K : BridgeMsgKeys) (self : CarlaBridgeOsc) (argc : Int)
    (argv : List lo_arg) (types : CStr) (hn : self.m_nameSize = strlen self.m_name) :
    handleMessage K self ('/' :: self.m_name ++ "/midi_program".toList) argc argv types =
      handle_midi_program self argc argv types := by
  rw [handleMessage_of_address K self '/' _ argc argv types hn]
  rfl

/-- A message for `/<name>/midi` is passed to `handle_midi`. -/
theorem handleMessage_midi (K : BridgeMsgKeys) (self : CarlaBridgeOsc) (argc : Int)
    (argv : List lo_arg) (types : CStr) (hn : self.m_nameSize = strlen self.m_name) :
    handleMessage K self ('/' :: self.m_name ++ "/midi".toList) argc argv types =
      handle_midi self argc argv types := by
  rw [handleMessage_of_address K self '/' _ argc argv types hn]
  rfl

/-- A message for `/<name>/show` is passed to `handle_show`. -/
theorem handleMessage_show (K : BridgeMsgKeys) (self : CarlaBridgeOsc) (argc : Int)
    (argv : List lo_arg) (types : CStr) (hn : self.m_nameSize = strlen self.m_name) :
    handleMessage K self ('/' :: self.m_name ++ "/show".toList) argc argv types =
      handle_show self := by
  rw [handleMessage_of_address K self '/' _ argc argv types hn]
  rfl

/-- A message for `/<name>/hide` is passed to `handle_hide`. -/
theorem handleMessage_hide (K : BridgeMsgKeys) (self : CarlaBridgeOsc) (argc : Int)
    (argv : List lo_arg) (types : CStr) (hn : self.m_nameSize = strlen self.m_name) :
    handleMessage K self ('/' :: self.m_name ++ "/hide".toList) argc argv types =
      handle_hide self := by
  rw [handleMessage_of_address K self '/' _ argc argv types hn]
  rfl

/-- A message for `/<name>/quit` is passed to `handle_quit`. -/
theorem handleMessage_quit (K : BridgeMsgKeys) (self : CarlaBridgeOsc) (argc : Int)
    (argv : List lo_arg) (types : CStr) (hn : self.m_nameSize = strlen self.m_name) :
    handleMessage K self ('/' :: self.m_name ++ "/quit".toList) argc argv types =
      handle_quit self := by
  rw [handleMessage_of_address K self '/' _ argc argv types hn]
  rfl

/-- The method buffer filled from `/<token>` differs from `/<lit>` when the token
differs from `lit` and `lit` is short enough for the buffer. -/
theorem method_buffer_ne (token lit : CStr) (hl : lit.length < 31) (h : token ≠ lit) :
    ('/' :: token).take 32 ≠ '/' :: lit := by
  intro e
  have e2 := eq_of_take_eq_short ('/' :: token) ('/' :: lit) 32 e (by simp; omega)
  exact h (List.cons.inj e2).2

/-! ## Rejections -/

/-- C4: for every message whose path is `/<name>/<token>` with a token that is
not one of configure, control, program, midi_program, midi, show, hide, quit,
`handleMessage` returns 1, logs exactly the line "unsupported OSC method" and
leaves the endpoint and its client as they were, whatever the arguments. -/
theorem unknown_method_rejected (K : BridgeMsgKeys) (self : CarlaBridgeOsc) (token : CStr)
    (argc : Int) (argv : List lo_arg) (types : CStr)
    (hn : self.m_nameSize = strlen self.m_name)
    (ht : token ∉ ["configure".toList, "control".toList, "program".toList,
      "midi_program".toList, "midi".toList, "show".toList, "hide".toList, "quit".toList]) :
    handleMessage K self ('/' :: self.m_name ++ '/' :: token) argc argv types =
      some ⟨1, self, [Warning.UnsupportedMethod ('/' :: self.m_name ++ '/' :: token)
        (('/' :: token).take 32)]⟩ := by
  simp only [List.mem_cons, List.mem_singleton, List.not_mem_nil, or_false, not_or] at ht
  obtain ⟨h1, h2, h3, h4, h5, h6, h7, h8⟩ := ht
  rw [handleMessage_of_address K self '/' _ argc argv types hn]
  have n1 : ¬ (('/' :: token).take 32 = "/configure".toList) :=
    method_buffer_ne token "configure".toList (by decide) h1
  have n2 : ¬ (('/' :: token).take 32 = "/control".toList) :=
    method_buffer_ne token "control".toList (by decide) h2
  have n3 : ¬ (('/' :: token).take 32 = "/program".toList) :=
    method_buffer_ne token "program".toList (by decide) h3
  have n4 : ¬ (('/' :: token).take 32 = "/midi_program".toList) :=
    method_buffer_ne token "midi_program".toList (by decide) h4
  have n5 : ¬ (('/' :: token).take 32 = "/midi".toList) :=
    method_buffer_ne token "midi".toList (by decide) h5
  have n6 : ¬ (('/' :: token).take 32 = "/show".toList) :=
    method_buffer_ne token "show".toList (by decide) h6
  have n7 : ¬ (('/' :: token).take 32 = "/hide".toList) :=
    method_buffer_ne token "hide".toList (by decide) h7
  have n8 : ¬ (('/' :: token).take 32 = "/quit".toList) :=
    method_buffer_ne token "quit".toList (by decide) h8
  rw [if_neg n1, if_neg n2, if_neg n3, if_neg n4, if_neg n5, if_neg n6, if_neg n7, if_neg n8]

/-- Witness of C4: `/abc/reset` sent to the sample endpoint, with an argument. -/
theorem unknown_method_rejected_witness :
    sampleEndpoint.m_nameSize = strlen sampleEndpoint.m_name ∧
      handleMessage sampleKeys sampleEndpoint "/abc/reset".toList 1 [lo_arg.i 4] "i".toList =
        some ⟨1, sampleEndpoint,
          [Warning.UnsupportedMethod "/abc/reset".toList "/reset".toList]⟩ :=
  ⟨rfl, unknown_method_rejected sampleKeys sampleEndpoint "reset".toList 1 [lo_arg.i 4]
    "i".toList rfl (by decide)⟩

/-- C2, as stated, fails: the endpoint named `abc` receives `/abcd/show`, a path
that does not begin with `/abc/`; the message is rejected with status 1 and no
call on the client, but the line logged is "unsupported OSC method", with the
method `d/show`, not "message not for this client". -/
theorem address_mismatch_counterexample :
    "/abcd/show".toList.take 5 ≠ "/abc/".toList ∧
      handleMessage sampleKeys sampleEndpoint "/abcd/show".toList 0 [] "".toList =
        some ⟨1, sampleEndpoint,
          [Warning.UnsupportedMethod "/abcd/show".toList "d/show".toList]⟩ ∧
      handleMessage sampleKeys sampleEndpoint "/abcd/show".toList 0 [] "".toList ≠
        some ⟨1, sampleEndpoint, [Warning.AddressMismatch "/abcd/show".toList "abc".toList]⟩ := by
  decide

/-- C2, amended: a path that is not longer than the name, or whose characters
at positions 1 to n (n the length of the name) are not the name, is rejected
as "message not for this client": status 1, that one line logged, endpoint
and client as they were. A path that carries the name at positions 1 to n
but no `/` right after it is rejected too, with status 1 and endpoint and
client as they were, the line logged being "unsupported OSC method". -/
theorem address_mismatch_rejected (K : BridgeMsgKeys) (self : CarlaBridgeOsc)
    (hn : self.m_nameSize = strlen self.m_name) :
    (∀ (path : CStr) (argc : Int) (argv : List lo_arg) (types : CStr),
      strlen path ≤ strlen self.m_name ∨
          (path.drop 1).take (strlen self.m_name) ≠ self.m_name →
        handleMessage K self path argc argv types =
          some ⟨1, self, [Warning.AddressMismatch path self.m_name]⟩) ∧
    (∀ (c0 : Char) (rest : CStr) (argc : Int) (argv : List lo_arg) (types : CStr),
      rest.head? ≠ some '/' →
        handleMessage K self (c0 :: self.m_name ++ rest) argc argv types =
          some ⟨1, self, [Warning.UnsupportedMethod (c0 :: self.m_name ++ rest)
            (rest.take 32)]⟩) := by
  constructor
  · intro path argc argv types h
    unfold handleMessage
    rw [if_pos]
    rw [hn]
    rcases h with h | h
    · exact Or.inl h
    · right
      unfold strncmp
      rw [if_neg]
      · decide
      · simpa [strlen] using h
  · intro c0 rest argc argv types h
    have hne : ∀ lit : CStr, rest.take 32 ≠ '/' :: lit := by
      intro lit e
      apply h
      cases rest with
      | nil => simp at e
      | cons r rs =>
        simp only [List.take_succ_cons, List.cons.injEq] at e
        simp [e.1]
    rw [handleMessage_of_address K self c0 rest argc argv types hn]
    have n1 : ¬ (rest.take 32 = "/configure".toList) := hne "configure".toList
    have n2 : ¬ (rest.take 32 = "/control".toList) := hne "control".toList
    have n3 : ¬ (rest.take 32 = "/program".toList) := hne "program".toList
    have n4 : ¬ (rest.take 32 = "/midi_program".toList) := hne "midi_program".toList
    have n5 : ¬ (rest.take 32 = "/midi".toList) := hne "midi".toList
    have n6 : ¬ (rest.take 32 = "/show".toList) := hne "show".toList
    have n7 : ¬ (rest.take 32 = "/hide".toList) := hne "hide".toList
    have n8 : ¬ (rest.take 32 = "/quit".toList) := hne "quit".toList
    rw [if_neg n1, if_neg n2, if_neg n3, if_neg n4, if_neg n5, if_neg n6, if_neg n7, if_neg n8]

/-- Witness of C2, amended: `/xyz/show` and `/abcd/show` sent to the sample
endpoint, named `abc`. -/
theorem address_mismatch_rejected_witness :
    sampleEndpoint.m_nameSize = strlen sampleEndpoint.m_name ∧
      handleMessage sampleKeys sampleEndpoint "/xyz/show".toList 0 [] "".toList =
        some ⟨1, sampleEndpoint, [Warning.AddressMismatch "/xyz/show".toList "abc".toList]⟩ ∧
      handleMessage sampleKeys sampleEndpoint "/abcd/show".toList 0 [] "".toList =
        some ⟨1, sampleEndpoint,
          [Warning.UnsupportedMethod "/abcd/show".toList "d/show".toList]⟩ :=
  ⟨rfl,
    (address_mismatch_rejected sampleKeys sampleEndpoint rfl).1 "/xyz/show".toList 0 [] "".toList
      (Or.inr (by decide)),
    (address_mismatch_rejected sampleKeys sampleEndpoint rfl).2 '/' "d/show".toList 0 [] "".toList
      (by decide)⟩

/-- The check of count and signature fails, with its line logged, when the count
or the signature is not the required one. -/
theorem check_osc_types_fails (argc : Int) (types : CStr) (argcToCompare : Int)
    (typesToCompare : CStr) (h : argc ≠ argcToCompare ∨ types ≠ typesToCompare) :
    CARLA_BRIDGE_OSC_CHECK_OSC_TYPES argc types argcToCompare typesToCompare =
      some (Warning.TypeSignatureMismatch argc types argcToCompare typesToCompare) := by
  unfold CARLA_BRIDGE_OSC_CHECK_OSC_TYPES
  rw [if_pos]
  rcases h with h | h
  · exact Or.inl h
  · exact Or.inr (fun e => h ((strcmp_eq_zero_iff _ _).1 e))

/-- C3, as stated, fails: `/abc/show` with one integer argument (count 1,
signature "i") is not rejected; it returns 0 and the client gets the call
`quequeMessage(MESSAGE_SHOW_GUI, 1, 0, 0.0)`. -/
theorem shape_mismatch_counterexample :
    handleMessage sampleKeys sampleEndpoint "/abc/show".toList 1 [lo_arg.i 7] "i".toList =
      some ⟨0, sampleEndpoint.call freshClient (.quequeMessage .MESSAGE_SHOW_GUI 1 0 .zero),
        []⟩ := by
  decide

/-- C3, amended: a message for `/<name>/<method>` with method configure, control,
program, midi_program or midi whose argument count or type signature is not
the required pair ((2,"ss"), (2,"if"), (1,"i"), (2,"ii"), (1,"m")) is
rejected: status 1, the line of the count-and-signature check logged, endpoint
and client as they were. The methods show, hide and quit take no arguments
and check none: with any arguments the message is treated like the one
without arguments. -/
theorem shape_mismatch_rejected (K : BridgeMsgKeys) (self : CarlaBridgeOsc) (argc : Int)
    (argv : List lo_arg) (types : CStr) (hn : self.m_nameSize = strlen self.m_name) :
    (argc ≠ 2 ∨ types ≠ "ss".toList →
      handleMessage K self ('/' :: self.m_name ++ "/configure".toList) argc argv types =
        some ⟨1, self, [Warning.TypeSignatureMismatch argc types 2 "ss".toList]⟩) ∧
    (argc ≠ 2 ∨ types ≠ "if".toList →
      handleMessage K self ('/' :: self.m_name ++ "/control".toList) argc argv types =
        some ⟨1, self, [Warning.TypeSignatureMismatch argc types 2 "if".toList]⟩) ∧
    (argc ≠ 1 ∨ types ≠ "i".toList →
      handleMessage K self ('/' :: self.m_name ++ "/program".toList) argc argv types =
        some ⟨1, self, [Warning.TypeSignatureMismatch argc types 1 "i".toList]⟩) ∧
    (argc ≠ 2 ∨ types ≠ "ii".toList →
      handleMessage K self ('/' :: self.m_name ++ "/midi_program".toList) argc argv types =
        some ⟨1, self, [Warning.TypeSignatureMismatch argc types 2 "ii".toList]⟩) ∧
    (argc ≠ 1 ∨ types ≠ "m".toList →
      handleMessage K self ('/' :: self.m_name ++ "/midi".toList) argc argv types =
        some ⟨1, self, [Warning.TypeSignatureMismatch argc types 1 "m".toList]⟩) ∧
    handleMessage K self ('/' :: self.m_name ++ "/show".toList) argc argv types =
      handleMessage K self ('/' :: self.m_name ++ "/show".toList) 0 [] "".toList ∧
    handleMessage K self ('/' :: self.m_name ++ "/hide".toList) argc argv types =
      handleMessage K self ('/' :: self.m_name ++ "/hide".toList) 0 [] "".toList ∧
    handleMessage K self ('/' :: self.m_name ++ "/quit".toList) argc argv types =
      handleMessage K self ('/' :: self.m_name ++ "/quit".toList) 0 [] "".toList := by
  refine ⟨?_, ?_, ?_, ?_, ?_, ?_, ?_, ?_⟩
  · intro h
    rw [handleMessage_configure K self argc argv types hn]
    unfold handle_configure
    rw [check_osc_types_fails argc types 2 "ss".toList h]
  · intro h
    rw [handleMessage_control K self argc argv types hn]
    unfold handle_control
    rw [check_osc_types_fails argc types 2 "if".toList h]
  · intro h
    rw [handleMessage_program K self argc argv types hn]
    unfold handle_program
    rw [check_osc_types_fails argc types 1 "i".toList h]
  · intro h
    rw [handleMessage_midi_program K self argc argv types hn]
    unfold handle_midi_program
    rw [check_osc_types_fails argc types 2 "ii".toList h]
  · intro h
    rw [handleMessage_midi K self argc argv types hn]
    unfold handle_midi
    rw [check_osc_types_fails argc types 1 "m".toList h]
  · rw [handleMessage_show K self argc argv types hn, handleMessage_show K self 0 [] _ hn]
  · rw [handleMessage_hide K self argc argv types hn, handleMessage_hide K self 0 [] _ hn]
  · rw [handleMessage_quit K self argc argv types hn, handleMessage_quit K self 0 [] _ hn]

/-- Witness of C3, amended: `/abc/control` with a single integer argument, and
`/abc/quit` with an argument, sent to the sample endpoint. -/
theorem shape_mismatch_rejected_witness :
    sampleEndpoint.m_nameSize = strlen sampleEndpoint.m_name ∧
      handleMessage sampleKeys sampleEndpoint "/abc/control".toList 1 [lo_arg.i 7] "i".toList =
        some ⟨1, sampleEndpoint, [Warning.TypeSignatureMismatch 1 "i".toList 2 "if".toList]⟩ ∧
      handleMessage sampleKeys sampleEndpoint "/abc/quit".toList 1 [lo_arg.i 7] "i".toList =
        handleMessage sampleKeys sampleEndpoint "/abc/quit".toList 0 [] "".toList :=
  ⟨rfl,
    (shape_mismatch_rejected sampleKeys sampleEndpoint 1 [lo_arg.i 7] "i".toList rfl).2.1
      (Or.inl (by decide)),
    (shape_mismatch_rejected sampleKeys sampleEndpoint 1 [lo_arg.i 7] "i".toList rfl).2.2.2.2.2.2.2⟩

/-! ## The `midi` handler -/

/-- C5: for every well-shaped `midi` message (one argument, signature "m") whose
status byte (position 1) has high nibble 9 (note on, any channel) and whose
velocity byte (position 3) is 0, `handle_midi` returns 0 and makes exactly one
call on the client, `quequeMessage(MESSAGE_NOTE_OFF, note, 0, 0.0)` with `note`
the byte at position 2; the outcome is not the one with
`quequeMessage(MESSAGE_NOTE_ON, note, 0, 0.0)`. -/
theorem handle_midi_note_on_velocity_zero (self : CarlaBridgeOsc) (client : CarlaBridgeClient)
    (hc : self.client = some client) (b0 status d1 d2 : uint8_t)
    (hs : status.val / 16 = 9) (hv : d2.val = 0) :
    handle_midi self 1 [lo_arg.m b0 status d1 d2] "m".toList =
        some ⟨0, self.call client (.quequeMessage .MESSAGE_NOTE_OFF d1.val 0 .zero), []⟩ ∧
      handle_midi self 1 [lo_arg.m b0 status d1 d2] "m".toList ≠
        some ⟨0, self.call client (.quequeMessage .MESSAGE_NOTE_ON d1.val 0 .zero), []⟩ := by
  have h := handle_midi_well_shaped self client hc b0 status d1 d2
  rw [if_pos (Or.inr ⟨hs, hv⟩)] at h
  refine ⟨h, ?_⟩
  rw [h]
  simp [CarlaBridgeOsc.call, CarlaBridgeClient.record]

/-- Witness of C5: the blob `[0, 0x93, 60, 0]` sent to the sample endpoint. -/
theorem handle_midi_note_on_velocity_zero_witness :
    sampleEndpoint.client = some freshClient ∧
      handle_midi sampleEndpoint 1 [lo_arg.m 0 0x93 60 0] "m".toList =
        some ⟨0, sampleEndpoint.call freshClient (.quequeMessage .MESSAGE_NOTE_OFF 60 0 .zero),
          []⟩ :=
  ⟨rfl, (handle_midi_note_on_velocity_zero sampleEndpoint freshClient rfl 0 0x93 60 0
    (by decide) (by decide)).1⟩

/-- C6: for every well-shaped `midi` message with blob `[b0, status, d1, d2]`: a
note-off status (high nibble 8) gives exactly the call
`quequeMessage(MESSAGE_NOTE_OFF, d1, 0, 0.0)`; a note-on status (high nibble 9)
with `d2 ≠ 0` gives exactly `quequeMessage(MESSAGE_NOTE_ON, d1, d2, 0.0)`; any
other status byte gives no call on the client; in each case 0 is returned and
nothing is logged. The outcome is the same for every `b0`. -/
theorem handle_midi_outcomes (self : CarlaBridgeOsc) (client : CarlaBridgeClient)
    (hc : self.client = some client) (b0 status d1 d2 : uint8_t) :
    (status.val / 16 = 8 →
        handle_midi self 1 [lo_arg.m b0 status d1 d2] "m".toList =
          some ⟨0, self.call client (.quequeMessage .MESSAGE_NOTE_OFF d1.val 0 .zero), []⟩) ∧
      (status.val / 16 = 9 → d2.val ≠ 0 →
        handle_midi self 1 [lo_arg.m b0 status d1 d2] "m".toList =
          some ⟨0, self.call client (.quequeMessage .MESSAGE_NOTE_ON d1.val d2.val .zero),
            []⟩) ∧
      (status.val / 16 ≠ 8 → status.val / 16 ≠ 9 →
        handle_midi self 1 [lo_arg.m b0 status d1 d2] "m".toList = some ⟨0, self, []⟩) ∧
      (∀ b0' : uint8_t,
        handle_midi self 1 [lo_arg.m b0' status d1 d2] "m".toList =
          handle_midi self 1 [lo_arg.m b0 status d1 d2] "m".toList) := by
  have h := handle_midi_well_shaped self client hc b0 status d1 d2
  refine ⟨?_, ?_, ?_, ?_⟩
  · intro h8
    rw [h, if_pos (Or.inl h8)]
  · intro h9 hd
    have hn : ¬ (status.val / 16 = 8 ∨ (status.val / 16 = 9 ∧ d2.val = 0)) := by
      rintro (h8 | ⟨_, h0⟩)
      · omega
      · exact hd h0
    rw [h, if_neg hn, if_pos h9]
  · intro h8 h9
    have hn : ¬ (status.val / 16 = 8 ∨ (status.val / 16 = 9 ∧ d2.val = 0)) := by
      rintro (h8' | ⟨h9', _⟩)
      · exact h8 h8'
      · exact h9 h9'
    rw [h, if_neg hn, if_neg h9]
  · intro b0'
    rw [h, handle_midi_well_shaped self client hc b0' status d1 d2]

/-- Witness of C6: a control-change blob `[0, 0xB0, 7, 100]` sent to the sample
endpoint is handled and leaves the client without a call. -/
theorem handle_midi_outcomes_witness :
    sampleEndpoint.client = some freshClient ∧
      handle_midi sampleEndpoint 1 [lo_arg.m 0 0xB0 7 100] "m".toList =
        some ⟨0, sampleEndpoint, []⟩ :=
  ⟨rfl, (handle_midi_outcomes sampleEndpoint freshClient rfl 0 0xB0 7 100).2.2.1
    (by decide) (by decide)⟩

/-! ## The handlers of fixed shape -/

/-- The handler `handle_control` on a well-shaped message. -/
theorem handle_control_well_shaped (self : CarlaBridgeOsc) (client : CarlaBridgeClient)
    (hc : self.client = some client) (i : Int) (f : CFloat) :
    handle_control self 2 [lo_arg.i i, lo_arg.f f] "if".toList =
      some ⟨0, self.call client (.quequeMessage .MESSAGE_PARAMETER i 0 (.ofFloat f)), []⟩ := by
  have h1 : CARLA_BRIDGE_OSC_CHECK_OSC_TYPES 2 "if".toList 2 "if".toList = none := by decide
  simp only [handle_control, h1, hc]
  rfl

/-- The handler `handle_program` on a well-shaped message. -/
theorem handle_program_well_shaped (self : CarlaBridgeOsc) (client : CarlaBridgeClient)
    (hc : self.client = some client) (i : Int) :
    handle_program self 1 [lo_arg.i i] "i".toList =
      some ⟨0, self.call client (.quequeMessage .MESSAGE_PROGRAM i 0 .zero), []⟩ := by
  have h2 : CARLA_BRIDGE_OSC_CHECK_OSC_TYPES 1 "i".toList 1 "i".toList = none := by decide
  simp only [handle_program, h2, hc]
  rfl

/-- The handler `handle_midi_program` on a well-shaped message. -/
theorem handle_midi_program_well_shaped (self : CarlaBridgeOsc) (client : CarlaBridgeClient)
    (hc : self.client = some client) (b p : Int) :
    handle_midi_program self 2 [lo_arg.i b, lo_arg.i p] "ii".toList =
      some ⟨0, self.call client (.quequeMessage .MESSAGE_MIDI_PROGRAM b p .zero), []⟩ := by
  have h3 : CARLA_BRIDGE_OSC_CHECK_OSC_TYPES 2 "ii".toList 2 "ii".toList = none := by decide
  simp only [handle_midi_program, h3, hc]
  rfl

/-- The handler `handle_show` on an endpoint with a client. -/
theorem handle_show_with_client (self : CarlaBridgeOsc) (client : CarlaBridgeClient)
    (hc : self.client = some client) :
    handle_show self =
      some ⟨0, self.call client (.quequeMessage .MESSAGE_SHOW_GUI 1 0 .zero), []⟩ := by
  simp [handle_show, hc]

/-- The handler `handle_hide` on an endpoint with a client. -/
theorem handle_hide_with_client (self : CarlaBridgeOsc) (client : CarlaBridgeClient)
    (hc : self.client = some client) :
    handle_hide self =
      some ⟨0, self.call client (.quequeMessage .MESSAGE_SHOW_GUI 0 0 .zero), []⟩ := by
  simp [handle_hide, hc]

/-- The handler `handle_quit` on an endpoint with a client. -/
theorem handle_quit_with_client (self : CarlaBridgeOsc) (client : CarlaBridgeClient)
    (hc : self.client = some client) :
    handle_quit self =
      some ⟨0, self.call client (.quequeMessage .MESSAGE_QUIT 0 0 .zero), []⟩ := by
  simp [handle_quit, hc]

/-- C9: on an endpoint with a client, every well-shaped message of a method of
fixed shape returns 0, logs nothing and makes exactly one call on the client,
with the arguments in the declared order: `control(i, f)` gives
`quequeMessage(MESSAGE_PARAMETER, i, 0, f)`; `program(i)` gives
`quequeMessage(MESSAGE_PROGRAM, i, 0, 0.0)`; `midi_program(b, p)` gives
`quequeMessage(MESSAGE_MIDI_PROGRAM, b, p, 0.0)`, bank first; `show` gives
`quequeMessage(MESSAGE_SHOW_GUI, 1, 0, 0.0)`, `hide` gives
`quequeMessage(MESSAGE_SHOW_GUI, 0, 0, 0.0)` and `quit` gives
`quequeMessage(MESSAGE_QUIT, 0, 0, 0.0)`. -/
theorem fixed_shape_handlers (self : CarlaBridgeOsc) (client : CarlaBridgeClient)
    (hc : self.client = some client) (i b p : Int) (f : CFloat) :
    handle_control self 2 [lo_arg.i i, lo_arg.f f] "if".toList =
        some ⟨0, self.call client (.quequeMessage .MESSAGE_PARAMETER i 0 (.ofFloat f)), []⟩ ∧
      handle_program self 1 [lo_arg.i i] "i".toList =
        some ⟨0, self.call client (.quequeMessage .MESSAGE_PROGRAM i 0 .zero), []⟩ ∧
      handle_midi_program self 2 [lo_arg.i b, lo_arg.i p] "ii".toList =
        some ⟨0, self.call client (.quequeMessage .MESSAGE_MIDI_PROGRAM b p .zero), []⟩ ∧
      handle_show self =
        some ⟨0, self.call client (.quequeMessage .MESSAGE_SHOW_GUI 1 0 .zero), []⟩ ∧
      handle_hide self =
        some ⟨0, self.call client (.quequeMessage .MESSAGE_SHOW_GUI 0 0 .zero), []⟩ ∧
      handle_quit self =
        some ⟨0, self.call client (.quequeMessage .MESSAGE_QUIT 0 0 .zero), []⟩ := by
  exact ⟨handle_control_well_shaped self client hc i f,
    handle_program_well_shaped self client hc i,
    handle_midi_program_well_shaped self client hc b p,
    handle_show_with_client self client hc,
    handle_hide_with_client self client hc,
    handle_quit_with_client self client hc⟩

/-- Witness of C9: `midi_program(3, 5)` sent to the sample endpoint. -/
theorem fixed_shape_handlers_witness :
    sampleEndpoint.client = some freshClient ∧
      handle_midi_program sampleEndpoint 2 [lo_arg.i 3, lo_arg.i 5] "ii".toList =
        some ⟨0, sampleEndpoint.call freshClient (.quequeMessage .MESSAGE_MIDI_PROGRAM 3 5 .zero),
          []⟩ :=
  ⟨rfl, (fixed_shape_handlers sampleEndpoint freshClient rfl 0 3 5 ⟨0⟩).2.2.1⟩

/-! ## The status reporters without a target -/

/-- C10: when the control channel `global_osc_data` has no target, each of the 16
status-report functions, for every payload, returns with the process state as
it was: nothing is added to the record of sends, and the control channel is
unchanged. -/
theorem reporters_without_target (w : ProcessState) (h : w.global_osc_data.target = none) :
    (∀ (index : Int) (value : CDouble), osc_send_bridge_ains_peak w index value = some w) ∧
    (∀ (index : Int) (value : CDouble), osc_send_bridge_aouts_peak w index value = some w) ∧
    (∀ ins outs total : Int, osc_send_bridge_audio_count w ins outs total = some w) ∧
    (∀ ins outs total : Int, osc_send_bridge_midi_count w ins outs total = some w) ∧
    (∀ ins outs total : Int, osc_send_bridge_param_count w ins outs total = some w) ∧
    (∀ count : Int, osc_send_bridge_program_count w count = some w) ∧
    (∀ count : Int, osc_send_bridge_midi_program_count w count = some w) ∧
    (∀ (category hints : Int) (name label maker copyright : CStr) (uniqueId : Int),
      osc_send_bridge_plugin_info w category hints name label maker copyright uniqueId =
        some w) ∧
    (∀ (index : Int) (name unit : CStr), osc_send_bridge_param_info w index name unit = some w) ∧
    (∀ index type rindex hints midi_channel midi_cc : Int,
      osc_send_bridge_param_data w index type rindex hints midi_channel midi_cc = some w) ∧
    (∀ (index : Int) (def_ min max step step_small step_large : CDouble),
      osc_send_bridge_param_ranges w index def_ min max step step_small step_large = some w) ∧
    (∀ (index : Int) (name : CStr), osc_send_bridge_program_info w index name = some w) ∧
    (∀ (index bank program : Int) (label : CStr),
      osc_send_bridge_midi_program_info w index bank program label = some w) ∧
    (∀ stype key value : CStr, osc_send_bridge_custom_data w stype key value = some w) ∧
    (∀ string_data : CStr, osc_send_bridge_chunk_data w string_data = some w) ∧
    osc_send_bridge_update w = some w := by
  refine ⟨?_, ?_, ?_, ?_, ?_, ?_, ?_, ?_, ?_, ?_, ?_, ?_, ?_, ?_, ?_, ?_⟩
  · intros; simp only [osc_send_bridge_ains_peak, h]
  · intros; simp only [osc_send_bridge_aouts_peak, h]
  · intros; simp only [osc_send_bridge_audio_count, h]
  · intros; simp only [osc_send_bridge_midi_count, h]
  · intros; simp only [osc_send_bridge_param_count, h]
  · intros; simp only [osc_send_bridge_program_count, h]
  · intros; simp only [osc_send_bridge_midi_program_count, h]
  · intros; simp only [osc_send_bridge_plugin_info, h]
  · intros; simp only [osc_send_bridge_param_info, h]
  · intros; simp only [osc_send_bridge_param_data, h]
  · intros; simp only [osc_send_bridge_param_ranges, h]
  · intros; simp only [osc_send_bridge_program_info, h]
  · intros; simp only [osc_send_bridge_midi_program_info, h]
  · intros; simp only [osc_send_bridge_custom_data, h]
  · intros; simp only [osc_send_bridge_chunk_data, h]
  · simp only [osc_send_bridge_update, h]

/-- Witness of C10: in a process without target that has sent nothing, a peak
report and an update report leave the record of sends empty. -/
theorem reporters_without_target_witness :
    idleProcess.global_osc_data.target = none ∧
      osc_send_bridge_ains_peak idleProcess 0 CDouble.zero = some idleProcess ∧
      osc_send_bridge_update idleProcess = some idleProcess ∧
      idleProcess.sent = [] :=
  ⟨rfl, (reporters_without_target idleProcess rfl).1 0 CDouble.zero,
    (reporters_without_target idleProcess rfl).2.2.2.2.2.2.2.2.2.2.2.2.2.2.2, rfl⟩

/-! ## Well-shaped messages -/

/-- Copying the reply path into a buffer declared with the length of the path
plus at least one byte fits. -/
theorem strcpy_fits (P : CStr) (k : Nat) (hk : 1 ≤ k) : strcpy (strlen P + k) P = some P := by
  unfold strcpy
  rw [if_pos (by omega)]

/-- Appending a report name to the reply path fits when the buffer was declared
with the length of the path plus at least the length of the name plus one. -/
theorem strcat_fits (P name : CStr) (k : Nat) (hk : strlen name + 1 ≤ k) :
    strcat (strlen P + k) P name = some (P ++ name) := by
  unfold strcat
  rw [if_pos (by omega)]

/-- The function `osc_send_bridge_ains_peak` with a target and a reply path. -/
theorem osc_send_bridge_ains_peak_with_target (w : ProcessState) (t : lo_address) (P : CStr)
    (ht : w.global_osc_data.target = some t) (hp : w.global_osc_data.path = some P) (index : Int) (value : CDouble) :
    osc_send_bridge_ains_peak w index value =
      some (lo_send w t (P ++ "/bridge_ains_peak".toList) "if".toList
          [.int index, .double value]) := by
  simp only [osc_send_bridge_ains_peak, ht, hp, Option.bind_eq_bind, Option.some_bind]
  rw [strcpy_fits P 18 (by decide)]
  simp only [Option.some_bind]
  rw [strcat_fits P "/bridge_ains_peak".toList 18 (by decide)]
  rfl

/-- The function `osc_send_bridge_aouts_peak` with a target and a reply path. -/
theorem osc_send_bridge_aouts_peak_with_target (w : ProcessState) (t : lo_address) (P : CStr)
    (ht : w.global_osc_data.target = some t) (hp : w.global_osc_data.path = some P) (index : Int) (value : CDouble) :
    osc_send_bridge_aouts_peak w index value =
      some (lo_send w t (P ++ "/bridge_aouts_peak".toList) "if".toList
          [.int index, .double value]) := by
  simp only [osc_send_bridge_aouts_peak, ht, hp, Option.bind_eq_bind, Option.some_bind]
  rw [strcpy_fits P 19 (by decide)]
  simp only [Option.some_bind]
  rw [strcat_fits P "/bridge_aouts_peak".toList 19 (by decide)]
  rfl

/-- The function `osc_send_bridge_audio_count` with a target and a reply path. -/
theorem osc_send_bridge_audio_count_with_target (w : ProcessState) (t : lo_address) (P : CStr)
    (ht : w.global_osc_data.target = some t) (hp : w.global_osc_data.path = some P) (ins outs total : Int) :
    osc_send_bridge_audio_count w ins outs total =
      some (lo_send w t (P ++ "/bridge_audio_count".toList) "iii".toList
          [.int ins, .int outs, .int total]) := by
  simp only [osc_send_bridge_audio_count, ht, hp, Option.bind_eq_bind, Option.some_bind]
  rw [strcpy_fits P 20 (by decide)]
  simp only [Option.some_bind]
  rw [strcat_fits P "/bridge_audio_count".toList 20 (by decide)]
  rfl

/-- The function `osc_send_bridge_midi_count` with a target and a reply path. -/
theorem osc_send_bridge_midi_count_with_target (w : ProcessState) (t : lo_address) (P : CStr)
    (ht : w.global_osc_data.target = some t) (hp : w.global_osc_data.path = some P) (ins outs total : Int) :
    osc_send_bridge_midi_count w ins outs total =
      some (lo_send w t (P ++ "/bridge_midi_count".toList) "iii".toList
          [.int ins, .int outs, .int total]) := by
  simp only [osc_send_bridge_midi_count, ht, hp, Option.bind_eq_bind, Option.some_bind]
  rw [strcpy_fits P 19 (by decide)]
  simp only [Option.some_bind]
  rw [strcat_fits P "/bridge_midi_count".toList 19 (by decide)]
  rfl

/-- The function `osc_send_bridge_param_count` with a target and a reply path. -/
theorem osc_send_bridge_param_count_with_target (w : ProcessState) (t : lo_address) (P : CStr)
    (ht : w.global_osc_data.target = some t) (hp : w.global_osc_data.path = some P) (ins outs total : Int) :
    osc_send_bridge_param_count w ins outs total =
      some (lo_send w t (P ++ "/bridge_param_count".toList) "iii".toList
          [.int ins, .int outs, .int total]) := by
  simp only [osc_send_bridge_param_count, ht, hp, Option.bind_eq_bind, Option.some_bind]
  rw [strcpy_fits P 20 (by decide)]
  simp only [Option.some_bind]
  rw [strcat_fits P "/bridge_param_count".toList 20 (by decide)]
  rfl

/-- The function `osc_send_bridge_program_count` with a target and a reply path. -/
theorem osc_send_bridge_program_count_with_target (w : ProcessState) (t : lo_address) (P : CStr)
    (ht : w.global_osc_data.target = some t) (hp : w.global_osc_data.path = some P) (count : Int) :
    osc_send_bridge_program_count w count =
      some (lo_send w t (P ++ "/bridge_program_count".toList) "i".toList
          [.int count]) := by
  simp only [osc_send_bridge_program_count, ht, hp, Option.bind_eq_bind, Option.some_bind]
  rw [strcpy_fits P 22 (by decide)]
  simp only [Option.some_bind]
  rw [strcat_fits P "/bridge_program_count".toList 22 (by decide)]
  rfl

/-- The function `osc_send_bridge_midi_program_count` with a target and a reply path. -/
theorem osc_send_bridge_midi_program_count_with_target (w : ProcessState) (t : lo_address) (P : CStr)
    (ht : w.global_osc_data.target = some t) (hp : w.global_osc_data.path = some P) (count : Int) :
    osc_send_bridge_midi_program_count w count =
      some (lo_send w t (P ++ "/bridge_midi_program_count".toList) "i".toList
          [.int count]) := by
  simp only [osc_send_bridge_midi_program_count, ht, hp, Option.bind_eq_bind, Option.some_bind]
  rw [strcpy_fits P 27 (by decide)]
  simp only [Option.some_bind]
  rw [strcat_fits P "/bridge_midi_program_count".toList 27 (by decide)]
  rfl

/-- The function `osc_send_bridge_plugin_info` with a target and a reply path. -/
theorem osc_send_bridge_plugin_info_with_target (w : ProcessState) (t : lo_address) (P : CStr)
    (ht : w.global_osc_data.target = some t) (hp : w.global_osc_data.path = some P) (category hints : Int) (name label maker copyright : CStr) (uniqueId : Int) :
    osc_send_bridge_plugin_info w category hints name label maker copyright uniqueId =
      some (lo_send w t (P ++ "/bridge_plugin_info".toList) "iissssi".toList
          [.int category, .int hints, .string name, .string label, .string maker,
            .string copyright, .long uniqueId]) := by
  simp only [osc_send_bridge_plugin_info, ht, hp, Option.bind_eq_bind, Option.some_bind]
  rw [strcpy_fits P 20 (by decide)]
  simp only [Option.some_bind]
  rw [strcat_fits P "/bridge_plugin_info".toList 20 (by decide)]
  rfl

/-- The function `osc_send_bridge_param_info` with a target and a reply path. -/
theorem osc_send_bridge_param_info_with_target (w : ProcessState) (t : lo_address) (P : CStr)
    (ht : w.global_osc_data.target = some t) (hp : w.global_osc_data.path = some P) (index : Int) (name unit : CStr) :
    osc_send_bridge_param_info w index name unit =
      some (lo_send w t (P ++ "/bridge_param_info".toList) "iss".toList
          [.int index, .string name, .string unit]) := by
  simp only [osc_send_bridge_param_info, ht, hp, Option.bind_eq_bind, Option.some_bind]
  rw [strcpy_fits P 19 (by decide)]
  simp only [Option.some_bind]
  rw [strcat_fits P "/bridge_param_info".toList 19 (by decide)]
  rfl

/-- The function `osc_send_bridge_param_data` with a target and a reply path. -/
theorem osc_send_bridge_param_data_with_target (w : ProcessState) (t : lo_address) (P : CStr)
    (ht : w.global_osc_data.target = some t) (hp : w.global_osc_data.path = some P) (index type rindex hints midi_channel midi_cc : Int) :
    osc_send_bridge_param_data w index type rindex hints midi_channel midi_cc =
      some (lo_send w t (P ++ "/bridge_param_data".toList) "iiiiii".toList
          [.int index, .int type, .int rindex, .int hints, .int midi_channel, .int midi_cc]) := by
  simp only [osc_send_bridge_param_data, ht, hp, Option.bind_eq_bind, Option.some_bind]
  rw [strcpy_fits P 19 (by decide)]
  simp only [Option.some_bind]
  rw [strcat_fits P "/bridge_param_data".toList 19 (by decide)]
  rfl

/-- The function `osc_send_bridge_param_ranges` with a target and a reply path. -/
theorem osc_send_bridge_param_ranges_with_target (w : ProcessState) (t : lo_address) (P : CStr)
    (ht : w.global_osc_data.target = some t) (hp : w.global_osc_data.path = some P) (index : Int) (def_ min max step step_small step_large : CDouble) :
    osc_send_bridge_param_ranges w index def_ min max step step_small step_large =
      some (lo_send w t (P ++ "/bridge_param_ranges".toList) "iffffff".toList
          [.int index, .double def_, .double min, .double max, .double step,
            .double step_small, .double step_large]) := by
  simp only [osc_send_bridge_param_ranges, ht, hp, Option.bind_eq_bind, Option.some_bind]
  rw [strcpy_fits P 21 (by decide)]
  simp only [Option.some_bind]
  rw [strcat_fits P "/bridge_param_ranges".toList 21 (by decide)]
  rfl

/-- The function `osc_send_bridge_program_info` with a target and a reply path. -/
theorem osc_send_bridge_program_info_with_target (w : ProcessState) (t : lo_address) (P : CStr)
    (ht : w.global_osc_data.target = some t) (hp : w.global_osc_data.path = some P) (index : Int) (name : CStr) :
    osc_send_bridge_program_info w index name =
      some (lo_send w t (P ++ "/bridge_program_info".toList) "is".toList
          [.int index, .string name]) := by
  simp only [osc_send_bridge_program_info, ht, hp, Option.bind_eq_bind, Option.some_bind]
  rw [strcpy_fits P 21 (by decide)]
  simp only [Option.some_bind]
  rw [strcat_fits P "/bridge_program_info".toList 21 (by decide)]
  rfl

/-- The function `osc_send_bridge_midi_program_info` with a target and a reply path. -/
theorem osc_send_bridge_midi_program_info_with_target (w : ProcessState) (t : lo_address) (P : CStr)
    (ht : w.global_osc_data.target = some t) (hp : w.global_osc_data.path = some P) (index bank program : Int) (label : CStr) :
    osc_send_bridge_midi_program_info w index bank program label =
      some (lo_send w t (P ++ "/bridge_midi_program_info".toList) "iiis".toList
          [.int index, .int bank, .int program, .string label]) := by
  simp only [osc_send_bridge_midi_program_info, ht, hp, Option.bind_eq_bind, Option.some_bind]
  rw [strcpy_fits P 26 (by decide)]
  simp only [Option.some_bind]
  rw [strcat_fits P "/bridge_midi_program_info".toList 26 (by decide)]
  rfl

/-- The function `osc_send_bridge_custom_data` with a target and a reply path. -/
theorem osc_send_bridge_custom_data_with_target (w : ProcessState) (t : lo_address) (P : CStr)
    (ht : w.global_osc_data.target = some t) (hp : w.global_osc_data.path = some P) (stype key value : CStr) :
    osc_send_bridge_custom_data w stype key value =
      some (lo_send w t (P ++ "/bridge_custom_data".toList) "sss".toList
          [.string stype, .string key, .string value]) := by
  simp only [osc_send_bridge_custom_data, ht, hp, Option.bind_eq_bind, Option.some_bind]
  rw [strcpy_fits P 20 (by decide)]
  simp only [Option.some_bind]
  rw [strcat_fits P "/bridge_custom_data".toList 20 (by decide)]
  rfl

/-- The function `osc_send_bridge_chunk_data` with a target and a reply path. -/
theorem osc_send_bridge_chunk_data_with_target (w : ProcessState) (t : lo_address) (P : CStr)
    (ht : w.global_osc_data.target = some t) (hp : w.global_osc_data.path = some P) (string_data : CStr) :
    osc_send_bridge_chunk_data w string_data =
      some (lo_send w t (P ++ "/bridge_chunk_data".toList) "s".toList
          [.string string_data]) := by
  simp only [osc_send_bridge_chunk_data, ht, hp, Option.bind_eq_bind, Option.some_bind]
  rw [strcpy_fits P 19 (by decide)]
  simp only [Option.some_bind]
  rw [strcat_fits P "/bridge_chunk_data".toList 19 (by decide)]
  rfl

/-- The function `osc_send_bridge_update` with a target and a reply path. -/
theorem osc_send_bridge_update_with_target (w : ProcessState) (t : lo_address) (P : CStr)
    (ht : w.global_osc_data.target = some t) (hp : w.global_osc_data.path = some P) :
    osc_send_bridge_update w =
      some (lo_send w t (P ++ "/bridge_update".toList) "".toList
          []) := by
  simp only [osc_send_bridge_update, ht, hp, Option.bind_eq_bind, Option.some_bind]
  rw [strcpy_fits P 15 (by decide)]
  simp only [Option.some_bind]
  rw [strcat_fits P "/bridge_update".toList 15 (by decide)]
  rfl

/-- C11: when the control channel has a target and the reply path `P`, each of
the 16 status-report functions, for every payload, makes exactly one
`lo_send`, to that target, added to the record of sends; its path is `P`
followed by the name of the report, and its type signature and arguments,
in order, are: ains_peak and aouts_peak "if" (index, value); audio_count,
midi_count and param_count "iii" (ins, outs, total); program_count and
midi_program_count "i" (count); plugin_info "iissssi" (category, hints, name,
label, maker, copyright, uniqueId); param_info "iss" (index, name, unit);
param_data "iiiiii" (index, type, rindex, hints, midi_channel, midi_cc);
param_ranges "iffffff" (index, def, min, max, step, step_small, step_large);
program_info "is" (index, name); midi_program_info "iiis" (index, bank,
program, label); custom_data "sss" (stype, key, value); chunk_data "s"
(string_data); update "" (no argument). -/
theorem reporters_with_target (w : ProcessState) (t : lo_address) (P : CStr)
    (ht : w.global_osc_data.target = some t) (hp : w.global_osc_data.path = some P) :
    (∀ (index : Int) (value : CDouble),
      osc_send_bridge_ains_peak w index value =
        some { w with sent := w.sent ++ [⟨t, P ++ "/bridge_ains_peak".toList, "if".toList,
          [.int index, .double value]⟩] }) ∧
    (∀ (index : Int) (value : CDouble),
      osc_send_bridge_aouts_peak w index value =
        some { w with sent := w.sent ++ [⟨t, P ++ "/bridge_aouts_peak".toList, "if".toList,
          [.int index, .double value]⟩] }) ∧
    (∀ (ins outs total : Int),
      osc_send_bridge_audio_count w ins outs total =
        some { w with sent := w.sent ++ [⟨t, P ++ "/bridge_audio_count".toList, "iii".toList,
          [.int ins, .int outs, .int total]⟩] }) ∧
    (∀ (ins outs total : Int),
      osc_send_bridge_midi_count w ins outs total =
        some { w with sent := w.sent ++ [⟨t, P ++ "/bridge_midi_count".toList, "iii".toList,
          [.int ins, .int outs, .int total]⟩] }) ∧
    (∀ (ins outs total : Int),
      osc_send_bridge_param_count w ins outs total =
        some { w with sent := w.sent ++ [⟨t, P ++ "/bridge_param_count".toList, "iii".toList,
          [.int ins, .int outs, .int total]⟩] }) ∧
    (∀ (count : Int),
      osc_send_bridge_program_count w count =
        some { w with sent := w.sent ++ [⟨t, P ++ "/bridge_program_count".toList, "i".toList,
          [.int count]⟩] }) ∧
    (∀ (count : Int),
      osc_send_bridge_midi_program_count w count =
        some { w with sent := w.sent ++ [⟨t, P ++ "/bridge_midi_program_count".toList, "i".toList,
          [.int count]⟩] }) ∧
    (∀ (category hints : Int) (name label maker copyright : CStr) (uniqueId : Int),
      osc_send_bridge_plugin_info w category hints name label maker copyright uniqueId =
        some { w with sent := w.sent ++ [⟨t, P ++ "/bridge_plugin_info".toList, "iissssi".toList,
          [.int category, .int hints, .string name, .string label, .string maker,
            .string copyright, .long uniqueId]⟩] }) ∧
    (∀ (index : Int) (name unit : CStr),
      osc_send_bridge_param_info w index name unit =
        some { w with sent := w.sent ++ [⟨t, P ++ "/bridge_param_info".toList, "iss".toList,
          [.int index, .string name, .string unit]⟩] }) ∧
    (∀ (index type rindex hints midi_channel midi_cc : Int),
      osc_send_bridge_param_data w index type rindex hints midi_channel midi_cc =
        some { w with sent := w.sent ++ [⟨t, P ++ "/bridge_param_data".toList, "iiiiii".toList,
          [.int index, .int type, .int rindex, .int hints, .int midi_channel, .int midi_cc]⟩] }) ∧
    (∀ (index : Int) (def_ min max step step_small step_large : CDouble),
      osc_send_bridge_param_ranges w index def_ min max step step_small step_large =
        some { w with sent := w.sent ++ [⟨t, P ++ "/bridge_param_ranges".toList, "iffffff".toList,
          [.int index, .double def_, .double min, .double max, .double step,
            .double step_small, .double step_large]⟩] }) ∧
    (∀ (index : Int) (name : CStr),
      osc_send_bridge_program_info w index name =
        some { w with sent := w.sent ++ [⟨t, P ++ "/bridge_program_info".toList, "is".toList,
          [.int index, .string name]⟩] }) ∧
    (∀ (index bank program : Int) (label : CStr),
      osc_send_bridge_midi_program_info w index bank program label =
        some { w with sent := w.sent ++ [⟨t, P ++ "/bridge_midi_program_info".toList, "iiis".toList,
          [.int index, .int bank, .int program, .string label]⟩] }) ∧
    (∀ (stype key value : CStr),
      osc_send_bridge_custom_data w stype key value =
        some { w with sent := w.sent ++ [⟨t, P ++ "/bridge_custom_data".toList, "sss".toList,
          [.string stype, .string key, .string value]⟩] }) ∧
    (∀ (string_data : CStr),
      osc_send_bridge_chunk_data w string_data =
        some { w with sent := w.sent ++ [⟨t, P ++ "/bridge_chunk_data".toList, "s".toList,
          [.string string_data]⟩] }) ∧
    (osc_send_bridge_update w =
        some { w with sent := w.sent ++ [⟨t, P ++ "/bridge_update".toList, "".toList,
          []⟩] }) :=
  ⟨osc_send_bridge_ains_peak_with_target w t P ht hp,
    osc_send_bridge_aouts_peak_with_target w t P ht hp,
    osc_send_bridge_audio_count_with_target w t P ht hp,
    osc_send_bridge_midi_count_with_target w t P ht hp,
    osc_send_bridge_param_count_with_target w t P ht hp,
    osc_send_bridge_program_count_with_target w t P ht hp,
    osc_send_bridge_midi_program_count_with_target w t P ht hp,
    osc_send_bridge_plugin_info_with_target w t P ht hp,
    osc_send_bridge_param_info_with_target w t P ht hp,
    osc_send_bridge_param_data_with_target w t P ht hp,
    osc_send_bridge_param_ranges_with_target w t P ht hp,
    osc_send_bridge_program_info_with_target w t P ht hp,
    osc_send_bridge_midi_program_info_with_target w t P ht hp,
    osc_send_bridge_custom_data_with_target w t P ht hp,
    osc_send_bridge_chunk_data_with_target w t P ht hp,
    osc_send_bridge_update_with_target w t P ht hp⟩

/-- Witness of C11: a parameter-info report and an update report made in the
sample process, whose reply path is `/ctrl`. -/
theorem reporters_with_target_witness :
    reportingProcess.global_osc_data.target = some sampleTarget ∧
      reportingProcess.global_osc_data.path = some "/ctrl".toList ∧
      osc_send_bridge_param_info reportingProcess 2 "gain".toList "dB".toList =
        some { reportingProcess with
          sent := [⟨sampleTarget, "/ctrl/bridge_param_info".toList, "iss".toList,
            [.int 2, .string "gain".toList, .string "dB".toList]⟩] } ∧
      osc_send_bridge_update reportingProcess =
        some { reportingProcess with
          sent := [⟨sampleTarget, "/ctrl/bridge_update".toList, "".toList, []⟩] } :=
  ⟨rfl, rfl,
    (reporters_with_target reportingProcess sampleTarget "/ctrl".toList rfl rfl).2.2.2.2.2.2.2.2.1
      2 "gain".toList "dB".toList,
    (reporters_with_target reportingProcess sampleTarget "/ctrl".toList rfl
      rfl).2.2.2.2.2.2.2.2.2.2.2.2.2.2.2⟩

/-! ## The size of the path buffer -/

/-- C18: in each of the 16 status-report functions, for every reply path `P`, the
size declared for the local buffer `target_path`, the length of `P` plus the
constant of the function (18, 19, 20, 19, 20, 22, 27, 20, 19, 19, 21, 21, 26,
20, 19, 15 in source order), is exactly the length of `P` plus the length of
the report name plus one; so appending the report name to the copy of `P`
fits the buffer, terminator included, and the function never writes past
it. -/
theorem target_path_buffer_exact (w : ProcessState) (t : lo_address) (P : CStr)
    (ht : w.global_osc_data.target = some t) (hp : w.global_osc_data.path = some P) :
    (strlen P + 18 = strlen P + strlen "/bridge_ains_peak".toList + 1 ∧
      strcat (strlen P + 18) P "/bridge_ains_peak".toList = some (P ++ "/bridge_ains_peak".toList) ∧
      ∀ (index : Int) (value : CDouble), osc_send_bridge_ains_peak w index value ≠ none) ∧
    (strlen P + 19 = strlen P + strlen "/bridge_aouts_peak".toList + 1 ∧
      strcat (strlen P + 19) P "/bridge_aouts_peak".toList = some (P ++ "/bridge_aouts_peak".toList) ∧
      ∀ (index : Int) (value : CDouble), osc_send_bridge_aouts_peak w index value ≠ none) ∧
    (strlen P + 20 = strlen P + strlen "/bridge_audio_count".toList + 1 ∧
      strcat (strlen P + 20) P "/bridge_audio_count".toList = some (P ++ "/bridge_audio_count".toList) ∧
      ∀ (ins outs total : Int), osc_send_bridge_audio_count w ins outs total ≠ none) ∧
    (strlen P + 19 = strlen P + strlen "/bridge_midi_count".toList + 1 ∧
      strcat (strlen P + 19) P "/bridge_midi_count".toList = some (P ++ "/bridge_midi_count".toList) ∧
      ∀ (ins outs total : Int), osc_send_bridge_midi_count w ins outs total ≠ none) ∧
    (strlen P + 20 = strlen P + strlen "/bridge_param_count".toList + 1 ∧
      strcat (strlen P + 20) P "/bridge_param_count".toList = some (P ++ "/bridge_param_count".toList) ∧
      ∀ (ins outs total : Int), osc_send_bridge_param_count w ins outs total ≠ none) ∧
    (strlen P + 22 = strlen P + strlen "/bridge_program_count".toList + 1 ∧
      strcat (strlen P + 22) P "/bridge_program_count".toList = some (P ++ "/bridge_program_count".toList) ∧
      ∀ (count : Int), osc_send_bridge_program_count w count ≠ none) ∧
    (strlen P + 27 = strlen P + strlen "/bridge_midi_program_count".toList + 1 ∧
      strcat (strlen P + 27) P "/bridge_midi_program_count".toList = some (P ++ "/bridge_midi_program_count".toList) ∧
      ∀ (count : Int), osc_send_bridge_midi_program_count w count ≠ none) ∧
    (strlen P + 20 = strlen P + strlen "/bridge_plugin_info".toList + 1 ∧
      strcat (strlen P + 20) P "/bridge_plugin_info".toList = some (P ++ "/bridge_plugin_info".toList) ∧
      ∀ (category hints : Int) (name label maker copyright : CStr) (uniqueId : Int), osc_send_bridge_plugin_info w category hints name label maker copyright uniqueId ≠ none) ∧
    (strlen P + 19 = strlen P + strlen "/bridge_param_info".toList + 1 ∧
      strcat (strlen P + 19) P "/bridge_param_info".toList = some (P ++ "/bridge_param_info".toList) ∧
      ∀ (index : Int) (name unit : CStr), osc_send_bridge_param_info w index name unit ≠ none) ∧
    (strlen P + 19 = strlen P + strlen "/bridge_param_data".toList + 1 ∧
      strcat (strlen P + 19) P "/bridge_param_data".toList = some (P ++ "/bridge_param_data".toList) ∧
      ∀ (index type rindex hints midi_channel midi_cc : Int), osc_send_bridge_param_data w index type rindex hints midi_channel midi_cc ≠ none) ∧
    (strlen P + 21 = strlen P + strlen "/bridge_param_ranges".toList + 1 ∧
      strcat (strlen P + 21) P "/bridge_param_ranges".toList = some (P ++ "/bridge_param_ranges".toList) ∧
      ∀ (index : Int) (def_ min max step step_small step_large : CDouble), osc_send_bridge_param_ranges w index def_ min max step step_small step_large ≠ none) ∧
    (strlen P + 21 = strlen P + strlen "/bridge_program_info".toList + 1 ∧
      strcat (strlen P + 21) P "/bridge_program_info".toList = some (P ++ "/bridge_program_info".toList) ∧
      ∀ (index : Int) (name : CStr), osc_send_bridge_program_info w index name ≠ none) ∧
    (strlen P + 26 = strlen P + strlen "/bridge_midi_program_info".toList + 1 ∧
      strcat (strlen P + 26) P "/bridge_midi_program_info".toList = some (P ++ "/bridge_midi_program_info".toList) ∧
      ∀ (index bank program : Int) (label : CStr), osc_send_bridge_midi_program_info w index bank program label ≠ none) ∧
    (strlen P + 20 = strlen P + strlen "/bridge_custom_data".toList + 1 ∧
      strcat (strlen P + 20) P "/bridge_custom_data".toList = some (P ++ "/bridge_custom_data".toList) ∧
      ∀ (stype key value : CStr), osc_send_bridge_custom_data w stype key value ≠ none) ∧
    (strlen P + 19 = strlen P + strlen "/bridge_chunk_data".toList + 1 ∧
      strcat (strlen P + 19) P "/bridge_chunk_data".toList = some (P ++ "/bridge_chunk_data".toList) ∧
      ∀ (string_data : CStr), osc_send_bridge_chunk_data w string_data ≠ none) ∧
    (strlen P + 15 = strlen P + strlen "/bridge_update".toList + 1 ∧
      strcat (strlen P + 15) P "/bridge_update".toList = some (P ++ "/bridge_update".toList) ∧
      osc_send_bridge_update w ≠ none) := by
  refine ⟨?_, ?_, ?_, ?_, ?_, ?_, ?_, ?_, ?_, ?_, ?_, ?_, ?_, ?_, ?_, ?_⟩
  · refine ⟨rfl, strcat_fits P _ 18 (by decide), ?_⟩
    intros; rw [osc_send_bridge_ains_peak_with_target w t P ht hp]
    exact Option.some_ne_none _
  · refine ⟨rfl, strcat_fits P _ 19 (by decide), ?_⟩
    intros; rw [osc_send_bridge_aouts_peak_with_target w t P ht hp]
    exact Option.some_ne_none _
  · refine ⟨rfl, strcat_fits P _ 20 (by decide), ?_⟩
    intros; rw [osc_send_bridge_audio_count_with_target w t P ht hp]
    exact Option.some_ne_none _
  · refine ⟨rfl, strcat_fits P _ 19 (by decide), ?_⟩
    intros; rw [osc_send_bridge_midi_count_with_target w t P ht hp]
    exact Option.some_ne_none _
  · refine ⟨rfl, strcat_fits P _ 20 (by decide), ?_⟩
    intros; rw [osc_send_bridge_param_count_with_target w t P ht hp]
    exact Option.some_ne_none _
  · refine ⟨rfl, strcat_fits P _ 22 (by decide), ?_⟩
    intros; rw [osc_send_bridge_program_count_with_target w t P ht hp]
    exact Option.some_ne_none _
  · refine ⟨rfl, strcat_fits P _ 27 (by decide), ?_⟩
    intros; rw [osc_send_bridge_midi_program_count_with_target w t P ht hp]
    exact Option.some_ne_none _
  · refine ⟨rfl, strcat_fits P _ 20 (by decide), ?_⟩
    intros; rw [osc_send_bridge_plugin_info_with_target w t P ht hp]
    exact Option.some_ne_none _
  · refine ⟨rfl, strcat_fits P _ 19 (by decide), ?_⟩
    intros; rw [osc_send_bridge_param_info_with_target w t P ht hp]
    exact Option.some_ne_none _
  · refine ⟨rfl, strcat_fits P _ 19 (by decide), ?_⟩
    intros; rw [osc_send_bridge_param_data_with_target w t P ht hp]
    exact Option.some_ne_none _
  · refine ⟨rfl, strcat_fits P _ 21 (by decide), ?_⟩
    intros; rw [osc_send_bridge_param_ranges_with_target w t P ht hp]
    exact Option.some_ne_none _
  · refine ⟨rfl, strcat_fits P _ 21 (by decide), ?_⟩
    intros; rw [osc_send_bridge_program_info_with_target w t P ht hp]
    exact Option.some_ne_none _
  · refine ⟨rfl, strcat_fits P _ 26 (by decide), ?_⟩
    intros; rw [osc_send_bridge_midi_program_info_with_target w t P ht hp]
    exact Option.some_ne_none _
  · refine ⟨rfl, strcat_fits P _ 20 (by decide), ?_⟩
    intros; rw [osc_send_bridge_custom_data_with_target w t P ht hp]
    exact Option.some_ne_none _
  · refine ⟨rfl, strcat_fits P _ 19 (by decide), ?_⟩
    intros; rw [osc_send_bridge_chunk_data_with_target w t P ht hp]
    exact Option.some_ne_none _
  · refine ⟨rfl, strcat_fits P _ 15 (by decide), ?_⟩
    rw [osc_send_bridge_update_with_target w t P ht hp]
    exact Option.some_ne_none _

/-- Witness of C18: the buffer of `osc_send_bridge_midi_program_count` in the
sample process, whose reply path `/ctrl` has 5 characters: 5 + 27 bytes for the
31 characters of `/ctrl/bridge_midi_program_count` and the terminator. -/
theorem target_path_buffer_exact_witness :
    reportingProcess.global_osc_data.target = some sampleTarget ∧
      reportingProcess.global_osc_data.path = some "/ctrl".toList ∧
      strlen "/ctrl".toList + 27 =
        strlen "/ctrl".toList + strlen "/bridge_midi_program_count".toList + 1 ∧
      strcat (strlen "/ctrl".toList + 27) "/ctrl".toList "/bridge_midi_program_count".toList =
        some "/ctrl/bridge_midi_program_count".toList :=
  ⟨rfl, rfl,
    (target_path_buffer_exact reportingProcess sampleTarget "/ctrl".toList rfl
      rfl).2.2.2.2.2.2.1.1,
    (target_path_buffer_exact reportingProcess sampleTarget "/ctrl".toList rfl
      rfl).2.2.2.2.2.2.1.2.1⟩

/-! ## Long method segments -/

/-- A method buffer filled with 32 characters equals no list shorter than 32. -/
theorem full_buffer_ne (rest lit : CStr) (hl : 31 < strlen rest) (hs : lit.length < 32) :
    rest.take 32 ≠ lit := by
  intro e
  have h32 : (rest.take 32).length = 32 := by
    rw [List.length_take]
    unfold strlen at hl
    omega
  rw [e] at h32
  omega

/-- With a remainder of 32 characters or more after the name, `handleMessage`
takes none of the eight branches. -/
theorem handleMessage_long_remainder (K : BridgeMsgKeys) (self : CarlaBridgeOsc) (c0 : Char)
    (rest : CStr) (argc : Int) (argv : List lo_arg) (types : CStr)
    (hn : self.m_nameSize = strlen self.m_name) (hl : 31 < strlen rest) :
    handleMessage K self (c0 :: self.m_name ++ rest) argc argv types =
      some ⟨1, self, [Warning.UnsupportedMethod (c0 :: self.m_name ++ rest)
        (rest.take 32)]⟩ := by
  rw [handleMessage_of_address K self c0 rest argc argv types hn]
  have n1 : ¬ (rest.take 32 = "/configure".toList) :=
    full_buffer_ne rest "/configure".toList hl (by decide)
  have n2 : ¬ (rest.take 32 = "/control".toList) :=
    full_buffer_ne rest "/control".toList hl (by decide)
  have n3 : ¬ (rest.take 32 = "/program".toList) :=
    full_buffer_ne rest "/program".toList hl (by decide)
  have n4 : ¬ (rest.take 32 = "/midi_program".toList) :=
    full_buffer_ne rest "/midi_program".toList hl (by decide)
  have n5 : ¬ (rest.take 32 = "/midi".toList) :=
    full_buffer_ne rest "/midi".toList hl (by decide)
  have n6 : ¬ (rest.take 32 = "/show".toList) :=
    full_buffer_ne rest "/show".toList hl (by decide)
  have n7 : ¬ (rest.take 32 = "/hide".toList) :=
    full_buffer_ne rest "/hide".toList hl (by decide)
  have n8 : ¬ (rest.take 32 = "/quit".toList) :=
    full_buffer_ne rest "/quit".toList hl (by decide)
  rw [if_neg n1, if_neg n2, if_neg n3, if_neg n4, if_neg n5, if_neg n6, if_neg n7, if_neg n8]

/-- C15: for every endpoint name and every path that carries the name at
positions 1 to n and goes on after it with more than 31 characters,
`handleMessage` calls no handler: it returns 1, logs "unsupported OSC method"
and leaves the endpoint and its client as they were. The method buffer holds
exactly the first 32 characters of the remainder, which equal none of the
eight method strings, and any other remainder with the same first 32
characters has the same outcome. -/
theorem long_method_rejected (K : BridgeMsgKeys) (self : CarlaBridgeOsc) (c0 : Char)
    (rest : CStr) (argc : Int) (argv : List lo_arg) (types : CStr)
    (hn : self.m_nameSize = strlen self.m_name) (hl : 31 < strlen rest) :
    handleMessage K self (c0 :: self.m_name ++ rest) argc argv types =
        some ⟨1, self, [Warning.UnsupportedMethod (c0 :: self.m_name ++ rest)
          (rest.take 32)]⟩ ∧
      memcpy32 ((c0 :: self.m_name ++ rest).drop (self.m_nameSize + 1)) = rest.take 32 ∧
      (rest.take 32).length = 32 ∧
      (∀ m : CStr, m ∈ ["/configure".toList, "/control".toList, "/program".toList,
          "/midi_program".toList, "/midi".toList, "/show".toList, "/hide".toList,
          "/quit".toList] → rest.take 32 ≠ m) ∧
      (∀ rest2 : CStr, rest2.take 32 = rest.take 32 →
        handleMessage K self (c0 :: self.m_name ++ rest2) argc argv types =
          some ⟨1, self, [Warning.UnsupportedMethod (c0 :: self.m_name ++ rest2)
            (rest.take 32)]⟩) := by
  have h32 : (rest.take 32).length = 32 := by
    rw [List.length_take]
    unfold strlen at hl
    omega
  refine ⟨handleMessage_long_remainder K self c0 rest argc argv types hn hl,
    method_buffer_eq self c0 rest hn, h32, ?_, ?_⟩
  · intro m hm
    apply full_buffer_ne rest m hl
    simp only [List.mem_cons, List.mem_singleton, List.not_mem_nil, or_false] at hm
    rcases hm with h | h | h | h | h | h | h | h <;> rw [h] <;> decide
  · intro rest2 h2
    have hl2 : 31 < strlen rest2 := by
      have : (rest2.take 32).length = 32 := by rw [h2, h32]
      rw [List.length_take] at this
      unfold strlen
      omega
    rw [handleMessage_long_remainder K self c0 rest2 argc argv types hn hl2, h2]

/-- Witness of C15: `/abc` followed by 33 characters, sent to the sample endpoint;
the method buffer holds the first 32 of them. -/
theorem long_method_rejected_witness :
    sampleEndpoint.m_nameSize = strlen sampleEndpoint.m_name ∧
      31 < strlen "/configure_the_plugin_right_now_x".toList ∧
      handleMessage sampleKeys sampleEndpoint "/abc/configure_the_plugin_right_now_x".toList 2
        [lo_arg.s "a".toList, lo_arg.s "b".toList] "ss".toList =
        some ⟨1, sampleEndpoint,
          [Warning.UnsupportedMethod "/abc/configure_the_plugin_right_now_x".toList
            "/configure_the_plugin_right_now_".toList]⟩ :=
  ⟨rfl, by decide,
    (long_method_rejected sampleKeys sampleEndpoint '/'
      "/configure_the_plugin_right_now_x".toList 2 [lo_arg.s "a".toList, lo_arg.s "b".toList]
      "ss".toList rfl (by decide)).1⟩

/-! ## The acceptance set of `handleMessage` -/

/-- A path longer than the name that carries the name at positions 1 to n is
made of its first character, the name, and a remainder. -/
theorem path_decompose (name path : CStr) (hl : strlen name < strlen path)
    (hm : (path.drop 1).take (strlen name) = name) :
    ∃ c0 : Char, path = c0 :: name ++ path.drop (strlen name + 1) := by
  cases path with
  | nil => simp [strlen] at hl
  | cons c0 tl =>
    refine ⟨c0, ?_⟩
    simp only [List.drop_succ_cons, List.drop_zero] at hm
    simp only [List.drop_succ_cons, List.cons_append, List.cons.injEq, true_and]
    conv_lhs => rw [← List.take_append_drop (strlen name) tl]
    rw [hm]

/-- A path that is not longer than the name, or does not carry the name at
positions 1 to n, is rejected as "message not for this client". -/
theorem handleMessage_not_for_client (K : BridgeMsgKeys) (self : CarlaBridgeOsc) (path : CStr)
    (argc : Int) (argv : List lo_arg) (types : CStr)
    (hn : self.m_nameSize = strlen self.m_name)
    (h : ¬ (strlen self.m_name < strlen path ∧
      (path.drop 1).take (strlen self.m_name) = self.m_name)) :
    handleMessage K self path argc argv types =
      some ⟨1, self, [Warning.AddressMismatch path self.m_name]⟩ := by
  unfold handleMessage
  rw [if_pos]
  rw [hn]
  by_cases hl : strlen self.m_name < strlen path
  · right
    unfold strncmp
    rw [if_neg]
    · decide
    · intro e
      apply h
      refine ⟨hl, ?_⟩
      simpa [strlen] using e
  · left
    omega

/-- The outcome of `handleMessage` does not depend on the first character of the
path, except that a rejection line quotes the path of its own message. -/
theorem handleMessage_first_char (K : BridgeMsgKeys) (self : CarlaBridgeOsc) (c c2 : Char)
    (tl : CStr) (argc : Int) (argv : List lo_arg) (types : CStr) :
    handleMessage K self (c2 :: tl) argc argv types =
        handleMessage K self (c :: tl) argc argv types ∨
      (handleMessage K self (c :: tl) argc argv types =
          some ⟨1, self, [Warning.AddressMismatch (c :: tl) self.m_name]⟩ ∧
        handleMessage K self (c2 :: tl) argc argv types =
          some ⟨1, self, [Warning.AddressMismatch (c2 :: tl) self.m_name]⟩) ∨
      (handleMessage K self (c :: tl) argc argv types =
          some ⟨1, self, [Warning.UnsupportedMethod (c :: tl)
            (memcpy32 (tl.drop self.m_nameSize))]⟩ ∧
        handleMessage K self (c2 :: tl) argc argv types =
          some ⟨1, self, [Warning.UnsupportedMethod (c2 :: tl)
            (memcpy32 (tl.drop self.m_nameSize))]⟩) := by
  unfold handleMessage
  simp only [strlen, List.length_cons, List.drop_succ_cons, List.drop_zero]
  split
  · right; left
    exact ⟨rfl, rfl⟩
  · split
    · left; rfl
    · split
      · left; rfl
      · split
        · left; rfl
        · split
          · left; rfl
          · split
            · left; rfl
            · split
              · left; rfl
              · split
                · left; rfl
                · split
                  · left; rfl
                  · right; right
                    exact ⟨rfl, rfl⟩

/-- C17: the acceptance set of `handleMessage`, for a name of length n. A path
longer than n that carries the name at positions 1 to n and whose characters
from position n+1 to its end are exactly `/configure`, `/control`, `/program`,
`/midi_program`, `/midi`, `/show`, `/hide` or `/quit` is passed to the handler
of that method. Every other path is rejected by `handleMessage` itself, with
status 1 and no handler called: as "message not for this client" or as
"unsupported OSC method". The character at position 0 is never examined: two
paths that differ in it only have the same outcome, except that a rejection
line quotes the path of its own message. -/
theorem acceptance_set (K : BridgeMsgKeys) (self : CarlaBridgeOsc) (path : CStr) (argc : Int)
    (argv : List lo_arg) (types : CStr) (hn : self.m_nameSize = strlen self.m_name) :
    (strlen self.m_name < strlen path →
      (path.drop 1).take (strlen self.m_name) = self.m_name →
      path.drop (strlen self.m_name + 1) = "/configure".toList →
      handleMessage K self path argc argv types = handle_configure K self argc argv types) ∧
    (strlen self.m_name < strlen path →
      (path.drop 1).take (strlen self.m_name) = self.m_name →
      path.drop (strlen self.m_name + 1) = "/control".toList →
      handleMessage K self path argc argv types = handle_control self argc argv types) ∧
    (strlen self.m_name < strlen path →
      (path.drop 1).take (strlen self.m_name) = self.m_name →
      path.drop (strlen self.m_name + 1) = "/program".toList →
      handleMessage K self path argc argv types = handle_program self argc argv types) ∧
    (strlen self.m_name < strlen path →
      (path.drop 1).take (strlen self.m_name) = self.m_name →
      path.drop (strlen self.m_name + 1) = "/midi_program".toList →
      handleMessage K self path argc argv types = handle_midi_program self argc argv types) ∧
    (strlen self.m_name < strlen path →
      (path.drop 1).take (strlen self.m_name) = self.m_name →
      path.drop (strlen self.m_name + 1) = "/midi".toList →
      handleMessage K self path argc argv types = handle_midi self argc argv types) ∧
    (strlen self.m_name < strlen path →
      (path.drop 1).take (strlen self.m_name) = self.m_name →
      path.drop (strlen self.m_name + 1) = "/show".toList →
      handleMessage K self path argc argv types = handle_show self) ∧
    (strlen self.m_name < strlen path →
      (path.drop 1).take (strlen self.m_name) = self.m_name →
      path.drop (strlen self.m_name + 1) = "/hide".toList →
      handleMessage K self path argc argv types = handle_hide self) ∧
    (strlen self.m_name < strlen path →
      (path.drop 1).take (strlen self.m_name) = self.m_name →
      path.drop (strlen self.m_name + 1) = "/quit".toList →
      handleMessage K self path argc argv types = handle_quit self) ∧
    (¬ (strlen self.m_name < strlen path ∧
        (path.drop 1).take (strlen self.m_name) = self.m_name ∧
        path.drop (strlen self.m_name + 1) ∈ ["/configure".toList, "/control".toList,
          "/program".toList, "/midi_program".toList, "/midi".toList, "/show".toList,
          "/hide".toList, "/quit".toList]) →
      handleMessage K self path argc argv types =
          some ⟨1, self, [Warning.AddressMismatch path self.m_name]⟩ ∨
        handleMessage K self path argc argv types =
          some ⟨1, self, [Warning.UnsupportedMethod path
            ((path.drop (strlen self.m_name + 1)).take 32)]⟩) ∧
    (∀ (c c2 : Char) (tl : CStr),
      handleMessage K self (c2 :: tl) argc argv types =
          handleMessage K self (c :: tl) argc argv types ∨
        (handleMessage K self (c :: tl) argc argv types =
            some ⟨1, self, [Warning.AddressMismatch (c :: tl) self.m_name]⟩ ∧
          handleMessage K self (c2 :: tl) argc argv types =
            some ⟨1, self, [Warning.AddressMismatch (c2 :: tl) self.m_name]⟩) ∨
        (handleMessage K self (c :: tl) argc argv types =
            some ⟨1, self, [Warning.UnsupportedMethod (c :: tl)
              (memcpy32 (tl.drop self.m_nameSize))]⟩ ∧
          handleMessage K self (c2 :: tl) argc argv types =
            some ⟨1, self, [Warning.UnsupportedMethod (c2 :: tl)
              (memcpy32 (tl.drop self.m_nameSize))]⟩)) := by
  have key : ∀ lit : CStr, strlen self.m_name < strlen path →
      (path.drop 1).take (strlen self.m_name) = self.m_name →
      path.drop (strlen self.m_name + 1) = lit →
      ∃ c0 : Char, path = c0 :: self.m_name ++ lit := by
    intro lit hl hm hr
    obtain ⟨c0, hp⟩ := path_decompose self.m_name path hl hm
    exact ⟨c0, by rw [hr] at hp; exact hp⟩
  refine ⟨?_, ?_, ?_, ?_, ?_, ?_, ?_, ?_, ?_, ?_⟩
  · intro hl hm hr
    obtain ⟨c0, hp⟩ := key _ hl hm hr
    rw [hp, handleMessage_of_address K self c0 _ argc argv types hn]
    rfl
  · intro hl hm hr
    obtain ⟨c0, hp⟩ := key _ hl hm hr
    rw [hp, handleMessage_of_address K self c0 _ argc argv types hn]
    rfl
  · intro hl hm hr
    obtain ⟨c0, hp⟩ := key _ hl hm hr
    rw [hp, handleMessage_of_address K self c0 _ argc argv types hn]
    rfl
  · intro hl hm hr
    obtain ⟨c0, hp⟩ := key _ hl hm hr
    rw [hp, handleMessage_of_address K self c0 _ argc argv types hn]
    rfl
  · intro hl hm hr
    obtain ⟨c0, hp⟩ := key _ hl hm hr
    rw [hp, handleMessage_of_address K self c0 _ argc argv types hn]
    rfl
  · intro hl hm hr
    obtain ⟨c0, hp⟩ := key _ hl hm hr
    rw [hp, handleMessage_of_address K self c0 _ argc argv types hn]
    rfl
  · intro hl hm hr
    obtain ⟨c0, hp⟩ := key _ hl hm hr
    rw [hp, handleMessage_of_address K self c0 _ argc argv types hn]
    rfl
  · intro hl hm hr
    obtain ⟨c0, hp⟩ := key _ hl hm hr
    rw [hp, handleMessage_of_address K self c0 _ argc argv types hn]
    rfl
  · intro hno
    by_cases hadr : strlen self.m_name < strlen path ∧
        (path.drop 1).take (strlen self.m_name) = self.m_name
    · right
      obtain ⟨hl, hm⟩ := hadr
      obtain ⟨c0, hp⟩ := path_decompose self.m_name path hl hm
      have hmem : path.drop (strlen self.m_name + 1) ∉ ["/configure".toList,
          "/control".toList, "/program".toList, "/midi_program".toList, "/midi".toList,
          "/show".toList, "/hide".toList, "/quit".toList] := fun hin => hno ⟨hl, hm, hin⟩
      simp only [List.mem_cons, List.mem_singleton, List.not_mem_nil, or_false, not_or]
        at hmem
      obtain ⟨h1, h2, h3, h4, h5, h6, h7, h8⟩ := hmem
      generalize path.drop (strlen self.m_name + 1) = rest at hp h1 h2 h3 h4 h5 h6 h7 h8 ⊢
      rw [hp, handleMessage_of_address K self c0 rest argc argv types hn]
      have n1 : ¬ (rest.take 32 = "/configure".toList) :=
        fun e => h1 (eq_of_take_eq_short rest _ 32 e (by decide))
      have n2 : ¬ (rest.take 32 = "/control".toList) :=
        fun e => h2 (eq_of_take_eq_short rest _ 32 e (by decide))
      have n3 : ¬ (rest.take 32 = "/program".toList) :=
        fun e => h3 (eq_of_take_eq_short rest _ 32 e (by decide))
      have n4 : ¬ (rest.take 32 = "/midi_program".toList) :=
        fun e => h4 (eq_of_take_eq_short rest _ 32 e (by decide))
      have n5 : ¬ (rest.take 32 = "/midi".toList) :=
        fun e => h5 (eq_of_take_eq_short rest _ 32 e (by decide))
      have n6 : ¬ (rest.take 32 = "/show".toList) :=
        fun e => h6 (eq_of_take_eq_short rest _ 32 e (by decide))
      have n7 : ¬ (rest.take 32 = "/hide".toList) :=
        fun e => h7 (eq_of_take_eq_short rest _ 32 e (by decide))
      have n8 : ¬ (rest.take 32 = "/quit".toList) :=
        fun e => h8 (eq_of_take_eq_short rest _ 32 e (by decide))
      rw [if_neg n1, if_neg n2, if_neg n3, if_neg n4, if_neg n5, if_neg n6, if_neg n7,
        if_neg n8]
    · left
      exact handleMessage_not_for_client K self path argc argv types hn hadr
  · intro c c2 tl
    exact handleMessage_first_char K self c c2 tl argc argv types

/-- Witness of C17: `/abc/quit` sent to the sample endpoint goes to `handle_quit`,
and so does `Xabc/quit`. -/
theorem acceptance_set_witness :
    sampleEndpoint.m_nameSize = strlen sampleEndpoint.m_name ∧
      handleMessage sampleKeys sampleEndpoint "/abc/quit".toList 0 [] "".toList =
        handle_quit sampleEndpoint ∧
      (handleMessage sampleKeys sampleEndpoint "Xabc/quit".toList 0 [] "".toList =
        handleMessage sampleKeys sampleEndpoint "/abc/quit".toList 0 [] "".toList) :=
  ⟨rfl,
    (acceptance_set sampleKeys sampleEndpoint "/abc/quit".toList 0 [] "".toList
      rfl).2.2.2.2.2.2.2.1 (by decide) (by decide) (by decide),
    by decide⟩

/-! ## The name of the endpoint -/

/-- The operation `handle_configure` leaves the name and its recorded length as they were. -/
theorem handle_configure_keeps_name (K : BridgeMsgKeys) (self : CarlaBridgeOsc) (argc : Int) (argv : List lo_arg)
    (types : CStr) (r : Outcome)
    (h : handle_configure K self argc argv types = some r) :
    r.self.m_name = self.m_name ∧ r.self.m_nameSize = self.m_nameSize := by
  unfold handle_configure at h
  split at h
  · cases h; exact ⟨rfl, rfl⟩
  · split at h
    · cases h; exact ⟨rfl, rfl⟩
    · simp only [Option.bind_eq_bind, Option.bind_eq_some] at h
      obtain ⟨_, _, _, _, _, _, _, _, h⟩ := h
      repeat' split at h
      all_goals (cases h; exact ⟨rfl, rfl⟩)

/-- The operation `handle_control` leaves the name and its recorded length as they were. -/
theorem handle_control_keeps_name (self : CarlaBridgeOsc) (argc : Int) (argv : List lo_arg)
    (types : CStr) (r : Outcome)
    (h : handle_control self argc argv types = some r) :
    r.self.m_name = self.m_name ∧ r.self.m_nameSize = self.m_nameSize := by
  unfold handle_control at h
  split at h
  · cases h; exact ⟨rfl, rfl⟩
  · split at h
    · cases h; exact ⟨rfl, rfl⟩
    · simp only [Option.bind_eq_bind, Option.bind_eq_some, Option.some.injEq] at h
      obtain ⟨_, _, _, _, _, _, _, _, h⟩ := h
      subst h
      exact ⟨rfl, rfl⟩

/-- The operation `handle_program` leaves the name and its recorded length as they were. -/
theorem handle_program_keeps_name (self : CarlaBridgeOsc) (argc : Int) (argv : List lo_arg)
    (types : CStr) (r : Outcome)
    (h : handle_program self argc argv types = some r) :
    r.self.m_name = self.m_name ∧ r.self.m_nameSize = self.m_nameSize := by
  unfold handle_program at h
  split at h
  · cases h; exact ⟨rfl, rfl⟩
  · split at h
    · cases h; exact ⟨rfl, rfl⟩
    · simp only [Option.bind_eq_bind, Option.bind_eq_some, Option.some.injEq] at h
      obtain ⟨_, _, _, _, h⟩ := h
      subst h
      exact ⟨rfl, rfl⟩

/-- The operation `handle_midi_program` leaves the name and its recorded length as they were. -/
theorem handle_midi_program_keeps_name (self : CarlaBridgeOsc) (argc : Int) (argv : List lo_arg)
    (types : CStr) (r : Outcome)
    (h : handle_midi_program self argc argv types = some r) :
    r.self.m_name = self.m_name ∧ r.self.m_nameSize = self.m_nameSize := by
  unfold handle_midi_program at h
  split at h
  · cases h; exact ⟨rfl, rfl⟩
  · split at h
    · cases h; exact ⟨rfl, rfl⟩
    · simp only [Option.bind_eq_bind, Option.bind_eq_some, Option.some.injEq] at h
      obtain ⟨_, _, _, _, _, _, _, _, h⟩ := h
      subst h
      exact ⟨rfl, rfl⟩

/-- The operation `handle_midi` leaves the name and its recorded length as they were. -/
theorem handle_midi_keeps_name (self : CarlaBridgeOsc) (argc : Int) (argv : List lo_arg)
    (types : CStr) (r : Outcome)
    (h : handle_midi self argc argv types = some r) :
    r.self.m_name = self.m_name ∧ r.self.m_nameSize = self.m_nameSize := by
  unfold handle_midi at h
  split at h
  · cases h; exact ⟨rfl, rfl⟩
  · split at h
    · cases h; exact ⟨rfl, rfl⟩
    · simp only [Option.bind_eq_bind, Option.bind_eq_some] at h
      obtain ⟨_, _, _, _, h⟩ := h
      repeat' split at h
      all_goals (cases h; exact ⟨rfl, rfl⟩)

/-- The operation `handle_show` leaves the name and its recorded length as they were. -/
theorem handle_show_keeps_name (self : CarlaBridgeOsc) (r : Outcome)
    (h : handle_show self = some r) :
    r.self.m_name = self.m_name ∧ r.self.m_nameSize = self.m_nameSize := by
  unfold handle_show at h
  split at h <;> (cases h; exact ⟨rfl, rfl⟩)

/-- The operation `handle_hide` leaves the name and its recorded length as they were. -/
theorem handle_hide_keeps_name (self : CarlaBridgeOsc) (r : Outcome)
    (h : handle_hide self = some r) :
    r.self.m_name = self.m_name ∧ r.self.m_nameSize = self.m_nameSize := by
  unfold handle_hide at h
  split at h <;> (cases h; exact ⟨rfl, rfl⟩)

/-- The operation `handle_quit` leaves the name and its recorded length as they were. -/
theorem handle_quit_keeps_name (self : CarlaBridgeOsc) (r : Outcome)
    (h : handle_quit self = some r) :
    r.self.m_name = self.m_name ∧ r.self.m_nameSize = self.m_nameSize := by
  unfold handle_quit at h
  split at h <;> (cases h; exact ⟨rfl, rfl⟩)

/-- The operation `handleMessage` leaves the name and its recorded length as they were. -/
theorem handleMessage_keeps_name (K : BridgeMsgKeys) (self : CarlaBridgeOsc) (path : CStr) (argc : Int)
    (argv : List lo_arg) (types : CStr) (r : Outcome)
    (h : handleMessage K self path argc argv types = some r) :
    r.self.m_name = self.m_name ∧ r.self.m_nameSize = self.m_nameSize := by
  unfold handleMessage at h
  split at h
  · cases h; exact ⟨rfl, rfl⟩
  · simp only at h
    split at h
    · exact handle_configure_keeps_name K self argc argv types r h
    · split at h
      · exact handle_control_keeps_name self argc argv types r h
      · split at h
        · exact handle_program_keeps_name self argc argv types r h
        · split at h
          · exact handle_midi_program_keeps_name self argc argv types r h
          · split at h
            · exact handle_midi_keeps_name self argc argv types r h
            · split at h
              · exact handle_show_keeps_name self r h
              · split at h
                · exact handle_hide_keeps_name self r h
                · split at h
                  · exact handle_quit_keeps_name self r h
                  · cases h; exact ⟨rfl, rfl⟩

/-- The operation `init` leaves the name and its recorded length as they were. -/
theorem init_keeps_name (T : liblo) (self : CarlaBridgeOsc) (url : CStr) (r : InitResult)
    (h : init T self url = some r) :
    r.self.m_name = self.m_name ∧ r.self.m_nameSize = self.m_nameSize := by
  unfold init at h
  simp only at h
  split at h
  · cases h; exact ⟨rfl, rfl⟩
  · simp only [Option.bind_eq_bind, Option.bind_eq_some, Option.some.injEq] at h
    obtain ⟨_, _, h⟩ := h
    subst h
    exact ⟨rfl, rfl⟩

/-- The operation `close` leaves the name and its recorded length as they were. -/
theorem close_keeps_name (self : CarlaBridgeOsc) (r : CloseResult)
    (h : close self = some r) :
    r.self.m_name = self.m_name ∧ r.self.m_nameSize = self.m_nameSize := by
  unfold close at h
  simp only at h
  split at h
  · cases h
  · split at h
    · cases h
    · cases h; exact ⟨rfl, rfl⟩

/-- C16, as stated, fails: an endpoint can be constructed with the empty name; its
recorded length is 0, and it handles the message `//quit`. -/
theorem empty_name_counterexample :
    Reachable (some freshClient) [] (CarlaBridgeOsc.new (some freshClient) []) ∧
      (CarlaBridgeOsc.new (some freshClient) []).m_name = [] ∧
      (CarlaBridgeOsc.new (some freshClient) []).m_nameSize = 0 ∧
      handleMessage sampleKeys (CarlaBridgeOsc.new (some freshClient) []) "//quit".toList 0 []
        "".toList =
        some ⟨0, (CarlaBridgeOsc.new (some freshClient) []).call freshClient
          (.quequeMessage .MESSAGE_QUIT 0 0 .zero), []⟩ :=
  ⟨Reachable.constructed, rfl, rfl, by decide⟩

/-- C16, amended: no operation (`init`, `close`, `handleMessage`, any handler) ever
changes the name or its recorded length: in every reachable state of an
endpoint constructed with `name`, the stored name is `name` and the stored
length is the length of `name`. The name may be empty: the stored length is
greater than 0 exactly when `name` is not the empty string. -/
theorem name_is_fixed (client_ : Option CarlaBridgeClient) (name : CStr) (s : CarlaBridgeOsc)
    (hs : Reachable client_ name s) :
    s.m_name = name ∧ s.m_nameSize = strlen name ∧ (0 < s.m_nameSize ↔ name ≠ []) := by
  have inv : s.m_name = name ∧ s.m_nameSize = strlen name := by
    induction hs with
    | constructed => exact ⟨rfl, rfl⟩
    | init s T url r _ h ih =>
      obtain ⟨h1, h2⟩ := init_keeps_name T s url r h
      exact ⟨h1.trans ih.1, h2.trans ih.2⟩
    | close s r _ h ih =>
      obtain ⟨h1, h2⟩ := close_keeps_name s r h
      exact ⟨h1.trans ih.1, h2.trans ih.2⟩
    | handleMessage s K path argc argv types r _ h ih =>
      obtain ⟨h1, h2⟩ := handleMessage_keeps_name K s path argc argv types r h
      exact ⟨h1.trans ih.1, h2.trans ih.2⟩
    | handle_configure s K argc argv types r _ h ih =>
      obtain ⟨h1, h2⟩ := handle_configure_keeps_name K s argc argv types r h
      exact ⟨h1.trans ih.1, h2.trans ih.2⟩
    | handle_control s argc argv types r _ h ih =>
      obtain ⟨h1, h2⟩ := handle_control_keeps_name s argc argv types r h
      exact ⟨h1.trans ih.1, h2.trans ih.2⟩
    | handle_program s argc argv types r _ h ih =>
      obtain ⟨h1, h2⟩ := handle_program_keeps_name s argc argv types r h
      exact ⟨h1.trans ih.1, h2.trans ih.2⟩
    | handle_midi_program s argc argv types r _ h ih =>
      obtain ⟨h1, h2⟩ := handle_midi_program_keeps_name s argc argv types r h
      exact ⟨h1.trans ih.1, h2.trans ih.2⟩
    | handle_midi s argc argv types r _ h ih =>
      obtain ⟨h1, h2⟩ := handle_midi_keeps_name s argc argv types r h
      exact ⟨h1.trans ih.1, h2.trans ih.2⟩
    | handle_show s r _ h ih =>
      obtain ⟨h1, h2⟩ := handle_show_keeps_name s r h
      exact ⟨h1.trans ih.1, h2.trans ih.2⟩
    | handle_hide s r _ h ih =>
      obtain ⟨h1, h2⟩ := handle_hide_keeps_name s r h
      exact ⟨h1.trans ih.1, h2.trans ih.2⟩
    | handle_quit s r _ h ih =>
      obtain ⟨h1, h2⟩ := handle_quit_keeps_name s r h
      exact ⟨h1.trans ih.1, h2.trans ih.2⟩
  refine ⟨inv.1, inv.2, ?_⟩
  rw [inv.2]
  unfold strlen
  rw [List.length_pos]

/-- Witness of C16, amended: the sample endpoint after `init` still has the name
`abc` and the length 3. -/
theorem name_is_fixed_witness :
    listeningEndpoint.m_name = "abc".toList ∧ listeningEndpoint.m_nameSize = 3 ∧
      (0 < listeningEndpoint.m_nameSize ↔ "abc".toList ≠ []) :=
  name_is_fixed (some freshClient) "abc".toList listeningEndpoint
    (Reachable.init sampleEndpoint sampleTransport "osc.udp://localhost:9000/ctrl".toList
      ⟨true, listeningEndpoint, [.lo_address_new (some "localhost".toList) (some "9000".toList),
        .lo_server_thread_new, .lo_server_thread_add_method, .lo_server_thread_start]⟩
      Reachable.constructed (by decide))

/-! ## The lifecycle: `init` and `close` -/

/-- C12: for every URL from which liblo derives no path, `init` returns false,
creates no server thread, registers no handler and starts no listener, and
leaves the server path and the reply path as null as they were; but the
target of the control data has already been set, to the address made from
the host and port of the URL, and stays set. An endpoint that had no target
before the call is therefore not in the state it was in before the call. -/
theorem init_failure_keeps_target (T : liblo) (self : CarlaBridgeOsc) (url : CStr)
    (hp : T.lo_url_get_path url = none) :
    ∃ r : InitResult, init T self url = some r ∧ r.ret = false ∧
      r.self.m_serverThread = self.m_serverThread ∧
      r.self.m_serverPath = self.m_serverPath ∧
      r.steps = [.lo_address_new (T.lo_url_get_hostname url) (T.lo_url_get_port url),
        .warning_failed_to_init url] ∧
      r.self.m_controlData.path = none ∧
      r.self.m_controlData.target =
        some ⟨T.lo_url_get_hostname url, T.lo_url_get_port url⟩ ∧
      (self.m_controlData.target = none → r.self ≠ self) := by
  refine ⟨⟨false, { self with m_controlData := { self.m_controlData with
    path := none, target := some ⟨T.lo_url_get_hostname url, T.lo_url_get_port url⟩ } },
    [.lo_address_new (T.lo_url_get_hostname url) (T.lo_url_get_port url),
      .warning_failed_to_init url]⟩, ?_, rfl, rfl, rfl, rfl, rfl, rfl, ?_⟩
  · unfold init
    simp only [hp, lo_address_new, Option.isNone_none, if_true]
  · intro h0 e
    have := congrArg (fun x : CarlaBridgeOsc => x.m_controlData.target) e
    simp only [h0] at this
    cases this

/-- Witness of C12: `init` of the sample endpoint with the URL `nonsense`, from
which the sample transport derives no path. -/
theorem init_failure_keeps_target_witness :
    sampleTransport.lo_url_get_path "nonsense".toList = none ∧
      sampleEndpoint.m_controlData.target = none ∧
      init sampleTransport sampleEndpoint "nonsense".toList =
        some ⟨false,
          { sampleEndpoint with
            m_controlData := { path := none, source := none, target := some sampleTarget } },
          [.lo_address_new (some "localhost".toList) (some "9000".toList),
            .warning_failed_to_init "nonsense".toList]⟩ ∧
      (∃ r : InitResult, init sampleTransport sampleEndpoint "nonsense".toList = some r ∧
        r.self ≠ sampleEndpoint) :=
  ⟨rfl, rfl, by decide,
    (init_failure_keeps_target sampleTransport sampleEndpoint "nonsense".toList rfl).imp
      (fun _ h => ⟨h.1, h.2.2.2.2.2.2.2 rfl⟩)⟩

/-- C13, as stated, fails: in the steps of `close` made on the sample endpoint
while it listens, the release of the control channel is the first step and the
stop of the listener the second. -/
theorem close_order_counterexample :
    init sampleTransport sampleEndpoint "osc.udp://localhost:9000/ctrl".toList =
        some ⟨true, listeningEndpoint,
          [.lo_address_new (some "localhost".toList) (some "9000".toList),
            .lo_server_thread_new, .lo_server_thread_add_method, .lo_server_thread_start]⟩ ∧
      (close listeningEndpoint).map (fun r => r.steps) =
        some [.osc_clear_data, .lo_server_thread_stop, .lo_server_thread_del_method,
          .lo_server_thread_free, .free_m_serverPath] ∧
      (close listeningEndpoint).map
          (fun r => decide (r.steps.indexOf LifecycleStep.lo_server_thread_stop <
            r.steps.indexOf LifecycleStep.osc_clear_data)) = some false := by
  decide

/-- C13, amended: in every execution of `close` on an endpoint that listens (its
server thread exists and has not been freed), the control channel is released
first, then the listener is stopped, then the handler is unregistered, the
server thread is freed and the server path is freed. Afterwards the control
data hold no path and no target, the server path is null, and the pointer to
the server thread still points at the freed thread. -/
theorem close_order (self : CarlaBridgeOsc) (thread : lo_server_thread)
    (ht : self.m_serverThread = some thread) (hf : thread.freed = false) :
    close self =
      some ⟨{ self with
          m_controlData := { path := none, source := none, target := none }
          m_serverThread := some ⟨false, false, true⟩
          m_serverPath := none },
        [.osc_clear_data, .lo_server_thread_stop, .lo_server_thread_del_method,
          .lo_server_thread_free, .free_m_serverPath]⟩ := by
  unfold close
  simp only [ht, hf, osc_clear_data]
  rfl

/-- Witness of C13, amended: `close` of the sample endpoint while it listens. -/
theorem close_order_witness :
    listeningEndpoint.m_serverThread = some ⟨true, true, false⟩ ∧
      close listeningEndpoint =
        some ⟨{ listeningEndpoint with
            m_controlData := { path := none, source := none, target := none }
            m_serverThread := some ⟨false, false, true⟩
            m_serverPath := none },
          [.osc_clear_data, .lo_server_thread_stop, .lo_server_thread_del_method,
            .lo_server_thread_free, .free_m_serverPath]⟩ :=
  ⟨rfl, close_order listeningEndpoint ⟨true, true, false⟩ rfl rfl⟩

/-- C14: the checks of `init` and `close` along the lifecycle of an endpoint that
starts without server thread. Before `init` the check of `init` passes and the
check of `close` fails. After a successful `init` the check of `init` fails and
the check of `close` passes. After `close` the check of `init` fails, but the
check of `close` passes again, because `close` frees the server thread without
clearing `m_serverThread`: a second `close` is not rejected, and it runs on the
freed thread. -/
theorem lifecycle_checks (T : liblo) (self : CarlaBridgeOsc) (url : CStr) (r : InitResult)
    (h0 : self.m_serverThread = none) (hi : init T self url = some r) (hr : r.ret = true) :
    init_assert self = true ∧ close_assert self = false ∧
      init_assert r.self = false ∧ close_assert r.self = true ∧
      ∃ c : CloseResult, close r.self = some c ∧
        init_assert c.self = false ∧ close_assert c.self = true ∧
        c.self.m_serverThread = some ⟨false, false, true⟩ ∧ close c.self = none := by
  have hthread : r.self.m_serverThread = some ⟨true, true, false⟩ := by
    unfold init at hi
    simp only at hi
    split at hi
    · cases hi
      cases hr
    · simp only [Option.bind_eq_bind, Option.bind_eq_some, Option.some.injEq] at hi
      obtain ⟨_, _, hi⟩ := hi
      subst hi
      rfl
  have hclose := close_order r.self ⟨true, true, false⟩ hthread rfl
  refine ⟨by simp [init_assert, h0], by simp [close_assert, h0],
    by simp [init_assert, hthread], by simp [close_assert, hthread], _, hclose, rfl, rfl, rfl,
    ?_⟩
  unfold close
  rfl

/-- Witness of C14: the sample endpoint, `init` with the sample transport and the
URL `osc.udp://localhost:9000/ctrl`, then `close`: the check of `close` still
passes, and `close` would run on the freed thread. -/
theorem lifecycle_checks_witness :
    sampleEndpoint.m_serverThread = none ∧
      init sampleTransport sampleEndpoint "osc.udp://localhost:9000/ctrl".toList =
        some ⟨true, listeningEndpoint,
          [.lo_address_new (some "localhost".toList) (some "9000".toList),
            .lo_server_thread_new, .lo_server_thread_add_method, .lo_server_thread_start]⟩ ∧
      (∃ c : CloseResult, close listeningEndpoint = some c ∧
        init_assert c.self = false ∧ close_assert c.self = true ∧
        c.self.m_serverThread = some ⟨false, false, true⟩ ∧ close c.self = none) :=
  ⟨rfl, by decide,
    (lifecycle_checks sampleTransport sampleEndpoint "osc.udp://localhost:9000/ctrl".toList
      ⟨true, listeningEndpoint,
        [.lo_address_new (some "localhost".toList) (some "9000".toList),
          .lo_server_thread_new, .lo_server_thread_add_method, .lo_server_thread_start]⟩
      rfl (by decide) rfl).2.2.2.2⟩

end CarlaBridge
